import Mathlib

/-! # JNI bridge of the k-NN plugin (`KNNIndex.cpp`)

A shallow embedding of
`jni/src/com_amazon_opendistroforelasticsearch_knn_index_v2011_KNNIndex.cpp`.

The bridge is stateful C++ with exceptions, so every function of the source is
embedded as a state transformer over a `Frame`:

* the `trace` of observable events (JNI calls, calls into the native library,
  creation and destruction of native objects),
* the `pending` flag of the Java runtime (`env->ExceptionCheck()`),
* the addresses of the live `IndexWrapper` objects,
* the local variables a `catch (...)` handler can still see.

What the Java runtime, the native library (nmslib) and the C++ standard library
do is not part of the file; it is supplied by a `Scenario`, which says at which
JNI access the runtime flags a failure, which native call or allocation throws
what, and with which text a `std::string` refuses a null pointer.
-/

namespace KNN

/-! ## Native failures -/

/-- The dynamic classes of a C++ exception that `catch_cpp_exception_and_throw_java`
tells apart (lines 76-87): `std::bad_alloc`, `std::runtime_error`, any other
`std::exception`, and anything that is not a `std::exception`. `what` is the
text returned by `what()`. -/
inductive CppException where
  | bad_alloc (what : String)
  | runtime_error (what : String)
  | exception (what : String)
  | non_standard
  deriving DecidableEq, Repr

/-! ## Events -/

/-- Java strings the bridge asks the runtime to view as UTF chars. -/
inductive JString where
  | spaceType
  | indexPath
  | algoParam (i : Nat)
  deriving DecidableEq, Repr

/-- Java arrays the bridge touches. -/
inductive JArray where
  | ids
  | vectors
  | vector (i : Nat)
  | algoParams
  | queryVector
  deriving DecidableEq, Repr

/-- The JNI functions called through `env->`, with the arguments that identify
the access. -/
inductive JniCall where
  | GetStringUTFChars (s : JString)
  | ReleaseStringUTFChars (s : JString)
  | GetIntArrayElements (a : JArray)
  | ReleaseIntArrayElements (a : JArray)
  | GetFloatArrayElements (a : JArray)
  | ReleaseFloatArrayElements (a : JArray)
  | GetArrayLength (a : JArray)
  | GetObjectArrayElement (a : JArray) (i : Nat)
  | FindClass (name : String)
  | GetMethodID (name : String) (sig : String)
  | NewObjectArray (n : Nat)
  | NewObject (id : Int) (distance : Rat)
  | SetObjectArrayElement (i : Nat)
  | ThrowNew (cls : String) (message : String)
  deriving DecidableEq, Repr

/-- Calls into the native library (nmslib). `CreateMethod` carries the dataset
it is handed: the offsets of the record views and the bytes of the buffer they
point into. -/
inductive NativeCall where
  | CreateSpace (spaceType : String)
  | CreateMethod (spaceType : String) (dataset : List Nat) (buffer : List Nat)
  | CreateIndex (params : List String)
  | SaveIndex (path : String)
  | LoadIndex (path : String)
  | SetQueryTimeParams (params : List String)
  | Search (k : Int)
  deriving DecidableEq, Repr

/-- Native objects the bridge creates and has to destroy. `object off` is the
`similarity::Object` view created at byte offset `off` of the object buffer;
`wrapper h` is the `IndexWrapper` at address `h`. -/
inductive Resource where
  | space
  | index
  | object (off : Nat)
  | objectBuffer
  | wrapper (h : Nat)
  | queryObject
  | resultQueue
  deriving DecidableEq, Repr

/-- One observable step of the bridge. -/
inductive Event where
  | jni (c : JniCall)
  | native (c : NativeCall)
  | create (r : Resource)
  | destroy (r : Resource)
  deriving DecidableEq, Repr

/-! ## Frames and programs -/

/-- The state a bridge function runs in; `locals` are the variables declared
before its `try` block. -/
structure Frame (L : Type) where
  trace : List Event
  pending : Bool
  live : List Nat
  locals : L

/-- How a piece of C++ ends: it returns, an exception propagates out of it, or
its behaviour is undefined. -/
inductive Outcome (α : Type) where
  | ret (a : α)
  | thrown (e : CppException)
  | undefined
  deriving DecidableEq, Repr

/-- A piece of C++ code running in a frame with locals `L`. -/
def Prog (L α : Type) : Type := Frame L → Outcome α × Frame L

namespace Prog

variable {L α β : Type}

/-- Normal completion. -/
def ret (a : α) : Prog L α := fun s => (Outcome.ret a, s)

/-- The statement `throw e`, also inside a function of the standard library. -/
def throw (e : CppException) : Prog L α := fun s => (Outcome.thrown e, s)

/-- Undefined behaviour. -/
def undefined : Prog L α := fun s => (Outcome.undefined, s)

/-- Sequencing: the rest runs only when the first part returns. -/
def seq (p : Prog L α) (f : α → Prog L β) : Prog L β := fun s =>
  match p s with
  | (Outcome.ret a, s1) => f a s1
  | (Outcome.thrown e, s1) => (Outcome.thrown e, s1)
  | (Outcome.undefined, s1) => (Outcome.undefined, s1)

/-- The block `try body catch (...) handler`. -/
def tryCatch (body : Prog L α) (handler : CppException → Prog L α) : Prog L α := fun s =>
  match body s with
  | (Outcome.thrown e, s1) => handler e s1
  | r => r

instance : Monad (Prog L) where
  pure := ret
  bind := seq

/-- Read the locals. -/
def getLocals : Prog L L := fun s => (Outcome.ret s.locals, s)

end Prog

open Prog

/-! ## The environment -/

/-- How line 130, `dataset.push_back(new similarity::Object(ptr))`, fails:
the `new` expression throws, and no object exists; or the object is created and
`push_back` throws when the vector has to grow, and the object is in no
container. -/
inductive ObjectFailure where
  | atNew (e : CppException)
  | atPushBack (e : CppException)
  deriving DecidableEq, Repr

/-- What the Java runtime, the native library and the C++ standard library do
during one call of a bridge function. `raises c` says that the runtime flags a
failure at the JNI call `c`; for a native call `none` means that it returns and
`some e` that it throws `e`; `newObject i` is what line 130 does in round `i`,
`none` when the object is created and pushed. `nullString` is the text of the
`std::logic_error` the standard library throws when a `std::string` is built
from a null pointer. -/
structure Scenario where
  raises : JniCall → Bool
  CreateSpace : Option CppException
  newObjectBuffer : Option CppException
  newObject : Nat → Option ObjectFailure
  CreateMethod : Option CppException
  CreateIndex : Option CppException
  SaveIndex : Option CppException
  LoadIndex : Option CppException
  SetQueryTimeParams : Option CppException
  nullString : String

variable {L : Type}

/-- A call `env->f(...)`: it is recorded, and the runtime may flag a failure,
which stays pending. -/
def jni (sc : Scenario) (c : JniCall) : Prog L Unit := fun s =>
  (Outcome.ret (),
    { s with trace := s.trace ++ [Event.jni c], pending := s.pending || sc.raises c })

/-- A call into the native library that either returns or throws. -/
def native (c : NativeCall) (result : Option CppException) : Prog L Unit := fun s =>
  match result with
  | none => (Outcome.ret (), { s with trace := s.trace ++ [Event.native c] })
  | some e => (Outcome.thrown e, { s with trace := s.trace ++ [Event.native c] })

/-- A `std::string` built from the result of `env->GetStringUTFChars(s, 0)`:
`string spaceTypeString(spaceTypeCStr)` (lines 98-99, 221-222, 227-228), the
argument of `paramsList.push_back(rawString)` (lines 155-156, 239-240) and the
`const string&` argument of `SaveIndex(indexString)` (lines 162-163). A flagged
access returns `NULL`, and the constructor of `std::string` throws
`std::logic_error` for a null pointer, before the chars are released. -/
def stringOfUTFChars (sc : Scenario) (s : JString) : Prog L Unit := do
  jni sc (JniCall.GetStringUTFChars s)
  if sc.raises (JniCall.GetStringUTFChars s) then
    Prog.throw (CppException.exception sc.nullString)
  else
    pure ()

/-! ## Lines 56-88: raising Java exceptions -/

/-- `JavaException` (lines 56-63): look the class up and, when it is found,
`ThrowNew` it. `FindClass` returns `NULL` exactly when it raises. -/
def JavaException (sc : Scenario) (type message : String) : Prog L Unit := do
  jni sc (JniCall.FindClass type)
  if sc.raises (JniCall.FindClass type) then
    pure ()
  else
    jni sc (JniCall.ThrowNew type message)

/-- `has_exception_in_stack` (lines 65-69). -/
def has_exception_in_stack : Prog L Unit := fun s =>
  if s.pending then (Outcome.thrown (CppException.runtime_error "Exception Occured"), s)
  else (Outcome.ret (), s)

/-- `catch_cpp_exception_and_throw_java` (lines 71-88), applied to the
exception being handled. -/
def catch_cpp_exception_and_throw_java (sc : Scenario) (e : CppException) : Prog L Unit :=
  match e with
  | CppException.bad_alloc what => JavaException sc "java/io/IOException" what
  | CppException.runtime_error what => JavaException sc "java/lang/Exception" what
  | CppException.exception what => JavaException sc "java/lang/Exception" what
  | CppException.non_standard => JavaException sc "java/lang/Exception" "Unknown exception occured"

/-! ## Lines 45-54: `IndexWrapper` -/

/-- The expression `delete indexWrapper`: nothing for a null pointer; for a live
wrapper the members are destroyed in reverse order of declaration (`data` is
empty, then `index`, then `space`) and the wrapper is gone; anything else is
undefined. -/
def deleteIndexWrapper (h : Nat) : Prog L Unit := fun s =>
  if h = 0 then (Outcome.ret (), s)
  else if h ∈ s.live then
    (Outcome.ret (),
      { s with
        trace := s.trace ++ [Event.destroy Resource.index, Event.destroy Resource.space,
                             Event.destroy (Resource.wrapper h)],
        live := s.live.erase h })
  else (Outcome.undefined, s)

/-! ## Lines 257-268: `gc` -/

/-- `Java_..._KNNIndex_gc` (lines 257-268). -/
def Java_com_amazon_opendistroforelasticsearch_knn_index_v2011_KNNIndex_gc
    (sc : Scenario) (indexPointer : Nat) : Prog Unit Unit :=
  tryCatch
    (do
      has_exception_in_stack
      deleteIndexWrapper indexPointer
      has_exception_in_stack)
    (fun e => catch_cpp_exception_and_throw_java sc e)

/-! ## Lines 217-255: `init` -/

/-- An address `operator new` has not handed out: not null and not live. -/
def freshAddress (live : List Nat) : Nat := live.foldr max 0 + 1

/-- The expression `new IndexWrapper(spaceType)` (lines 46-49). The members are
built in order; when `CreateMethod` throws, the `space` member, already built,
is destroyed and no wrapper exists. -/
def newIndexWrapper (sc : Scenario) (spaceType : String) : Prog L Nat := fun s =>
  match sc.CreateSpace with
  | some e =>
    (Outcome.thrown e,
      { s with trace := s.trace ++ [Event.native (NativeCall.CreateSpace spaceType)] })
  | none =>
    match sc.CreateMethod with
    | some e =>
      (Outcome.thrown e,
        { s with
          trace := s.trace ++ [Event.native (NativeCall.CreateSpace spaceType),
                               Event.create Resource.space,
                               Event.native (NativeCall.CreateMethod spaceType [] []),
                               Event.destroy Resource.space] })
    | none =>
      (Outcome.ret (freshAddress s.live),
        { s with
          trace := s.trace ++ [Event.native (NativeCall.CreateSpace spaceType),
                               Event.create Resource.space,
                               Event.native (NativeCall.CreateMethod spaceType [] []),
                               Event.create Resource.index,
                               Event.create (Resource.wrapper (freshAddress s.live))],
          live := s.live ++ [freshAddress s.live] })

/-- The loop that reads the parameter strings (lines 153-158 and 237-242),
started at index `i` with `n` strings to go. The strings themselves are the
argument `algoParams` of the bridge function. `push_back(rawString)` builds a
`std::string` from the chars, so a flagged `GetStringUTFChars` ends the loop by
an exception before the chars are released. -/
def readParams (sc : Scenario) : Nat → Nat → Prog L Unit
  | 0, _ => pure ()
  | n + 1, i => do
    jni sc (JniCall.GetObjectArrayElement JArray.algoParams i)
    stringOfUTFChars sc (JString.algoParam i)
    jni sc (JniCall.ReleaseStringUTFChars (JString.algoParam i))
    readParams sc n (i + 1)

/-- The locals of `init` declared before the `try`: the outer `indexWrapper`
of line 219, `0` for `NULL`. -/
structure InitLocals where
  indexWrapper : Nat

/-- The `try` block of `init` (lines 221-246). The `indexWrapper` of line 231 is
a new variable of the block: the one of line 219 is not assigned. The strings
of lines 222 and 228 are built before the chars are released and before
`has_exception_in_stack` is called. -/
def init_try (sc : Scenario) (indexPath : String) (algoParams : List String)
    (spaceType : String) : Prog InitLocals Nat := do
  stringOfUTFChars sc JString.indexPath
  jni sc (JniCall.ReleaseStringUTFChars JString.indexPath)
  has_exception_in_stack
  stringOfUTFChars sc JString.spaceType
  jni sc (JniCall.ReleaseStringUTFChars JString.spaceType)
  has_exception_in_stack
  let indexWrapper ← newIndexWrapper sc spaceType
  native (NativeCall.LoadIndex indexPath) sc.LoadIndex
  jni sc (JniCall.GetArrayLength JArray.algoParams)
  readParams sc algoParams.length 0
  native (NativeCall.SetQueryTimeParams algoParams) sc.SetQueryTimeParams
  has_exception_in_stack
  pure indexWrapper

/-- The handler of `init` (lines 250-253) followed by `return NULL`. -/
def init_catch (sc : Scenario) (e : CppException) : Prog InitLocals Nat := do
  let l ← getLocals
  if l.indexWrapper ≠ 0 then deleteIndexWrapper l.indexWrapper else pure ()
  catch_cpp_exception_and_throw_java sc e
  pure 0

/-- `Java_..._KNNIndex_init` (lines 217-255); the result is the handle. -/
def Java_com_amazon_opendistroforelasticsearch_knn_index_v2011_KNNIndex_init
    (sc : Scenario) (indexPath : String) (algoParams : List String) (spaceType : String) :
    Prog InitLocals Nat :=
  tryCatch (init_try sc indexPath algoParams spaceType) (init_catch sc)


/-! ## Lines 186-215: `queryIndex` -/

/-- The Java object `KNNQueryResult(int id, float distance)` built on line 207. -/
structure KNNQueryResult where
  id : Int
  distance : Rat
  deriving DecidableEq, Repr

/-- The part of `similarity::KNNQueue<float>` the bridge uses, over any
representation `Q` of the queue: `Size()`, `TopDistance()`, and `Pop()` followed
by `->id()`, which gives the id of the removed object and leaves the rest. -/
structure KNNQueueOps (Q : Type) where
  Size : Q → Nat
  TopDistance : Q → Rat
  Pop : Q → Int × Q

/-- An object held by a `std::unique_ptr` local of the block `body`: it is
destroyed when control leaves the block, by return or by exception. -/
def owned {α : Type} (r : Resource) (body : Prog L α) : Prog L α := fun s =>
  match body { s with trace := s.trace ++ [Event.create r] } with
  | (Outcome.undefined, s1) => (Outcome.undefined, s1)
  | (o, s1) => (o, { s1 with trace := s1.trace ++ [Event.destroy r] })

/-- Following the handle (`indexWrapper->space`, line 196) is defined only for
a live wrapper. -/
def derefIndexWrapper (h : Nat) : Prog L Unit := fun s =>
  if h ∈ s.live then (Outcome.ret (), s) else (Outcome.undefined, s)

/-- The drain loop of lines 204-208 with `n` rounds to go, at index `i`. -/
def drain {Q : Type} (sc : Scenario) (ops : KNNQueueOps Q) :
    Nat → Nat → Q → List (Option KNNQueryResult) → Prog L (List (Option KNNQueryResult))
  | 0, _, _, results => pure results
  | n + 1, i, result, results => do
    let distance := ops.TopDistance result
    let popped := ops.Pop result
    jni sc (JniCall.NewObject popped.1 distance)
    jni sc (JniCall.SetObjectArrayElement i)
    drain sc ops n (i + 1) popped.2 (results.set i (some ⟨popped.1, distance⟩))

/-- Lines 198-210, once `Search` has returned with the queue `result`. -/
def queryIndex_results {Q : Type} (sc : Scenario) (ops : KNNQueueOps Q) (result : Q) :
    Prog L (Option (List (Option KNNQueryResult))) := do
  has_exception_in_stack
  let resultSize := ops.Size result
  jni sc (JniCall.FindClass "com/amazon/opendistroforelasticsearch/knn/index/KNNQueryResult")
  jni sc (JniCall.GetMethodID "<init>" "(IF)V")
  jni sc (JniCall.NewObjectArray resultSize)
  let results ← drain sc ops resultSize 0 result (List.replicate resultSize none)
  has_exception_in_stack
  pure (some results)

/-- The `try` block of `queryIndex` (lines 189-210). `search` is what the
native `Search` does with the query: it throws, or it leaves a result queue. -/
def queryIndex_try {Q : Type} (sc : Scenario) (ops : KNNQueueOps Q)
    (search : Except CppException Q) (indexPointer : Nat) (k : Int) :
    Prog L (Option (List (Option KNNQueryResult))) := do
  jni sc (JniCall.GetFloatArrayElements JArray.queryVector)
  jni sc (JniCall.GetArrayLength JArray.queryVector)
  owned Resource.queryObject (do
    jni sc (JniCall.ReleaseFloatArrayElements JArray.queryVector)
    has_exception_in_stack
    derefIndexWrapper indexPointer
    match search with
    | Except.error e => do
      native (NativeCall.Search k) (some e)
      pure none
    | Except.ok result => do
      native (NativeCall.Search k) none
      owned Resource.resultQueue (queryIndex_results sc ops result))

/-- `Java_..._KNNIndex_queryIndex` (lines 186-215); `none` is `NULL`. -/
def Java_com_amazon_opendistroforelasticsearch_knn_index_v2011_KNNIndex_queryIndex {Q : Type}
    (sc : Scenario) (ops : KNNQueueOps Q) (search : Except CppException Q)
    (indexPointer : Nat) (k : Int) : Prog Unit (Option (List (Option KNNQueryResult))) :=
  tryCatch (queryIndex_try sc ops search indexPointer k)
    (fun e => do
      catch_cpp_exception_and_throw_java sc e
      pure none)

/-! ## Lines 90-184: `saveIndex` -/

/-- The sizes `similarity::ID_SIZE`, `similarity::LABEL_SIZE` and
`similarity::DATALENGTH_SIZE` of the native library, in bytes. -/
structure NativeSizes where
  ID_SIZE : Nat
  LABEL_SIZE : Nat
  DATALENGTH_SIZE : Nat

/-- The number of values of `size_t`. -/
def SIZE_MAX1 : Nat := 2 ^ 64

/-- The `n` low bytes of `v`, least significant first. -/
def leBytes : Nat → Nat → List Nat
  | 0, _ => []
  | n + 1, v => v % 256 :: leBytes n (v / 256)

/-- The four bytes of a `jint`. -/
def jintBytes (x : Int) : List Nat := leBytes 4 (x % 2 ^ 32).toNat

/-- The memory `object_ids` points at: the ids one after the other. -/
def idsMemory (ids : List Int) : List Nat := (ids.map jintBytes).flatten

/-- The memory of a `float` array, every component given by its 32 bits. -/
def floatsMemory (v : List Nat) : List Nat := (v.map (leBytes 4)).flatten

/-- The bytes of `DEFAULT_LABEL` (line 43), the value `-1` of `LabelType`, which
is `LABEL_SIZE` bytes wide. -/
def defaultLabelMemory (S : NativeSizes) : List Nat := List.replicate S.LABEL_SIZE 255

/-- The eight bytes of a `size_t`. -/
def sizeMemory (x : Nat) : List Nat := leBytes 8 x

/-- The call `memcpy(buffer + dst, src, n)`, where `src` is the memory from the
source pointer on. Reading past the source or writing past the buffer is
undefined. -/
def memcpy (buffer : List Nat) (dst : Nat) (src : List Nat) (n : Nat) : Prog L (List Nat) :=
  if n ≤ src.length ∧ dst + n ≤ buffer.length then
    pure (buffer.take dst ++ src.take n ++ buffer.drop (dst + n))
  else Prog.undefined

/-- The locals of `saveIndex` declared before the `try` (lines 92-95), a
pointer being `true` when it is not `NULL`, and `objectBuffer`, the
`std::unique_ptr` of line 126, `true` once it owns the buffer. -/
structure SaveLocals where
  space : Bool
  dataset : List Nat
  index : Bool
  object_ids : Bool
  objectBuffer : Bool

/-- Line 102: `space = CreateSpace(...)`. -/
def assignSpace (sc : Scenario) (spaceType : String) : Prog SaveLocals Unit := fun s =>
  match sc.CreateSpace with
  | some e =>
    (Outcome.thrown e,
      { s with trace := s.trace ++ [Event.native (NativeCall.CreateSpace spaceType)] })
  | none =>
    (Outcome.ret (),
      { s with
        trace := s.trace ++ [Event.native (NativeCall.CreateSpace spaceType),
                             Event.create Resource.space],
        locals := { s.locals with space := true } })

/-- Line 103: `object_ids = env->GetIntArrayElements(ids, 0)`, which is `NULL`
exactly when the access raises. -/
def assignObjectIds (sc : Scenario) : Prog SaveLocals Unit := fun s =>
  (Outcome.ret (),
    { s with
      trace := s.trace ++ [Event.jni (JniCall.GetIntArrayElements JArray.ids)],
      pending := s.pending || sc.raises (JniCall.GetIntArrayElements JArray.ids),
      locals := { s.locals with
                  object_ids := !sc.raises (JniCall.GetIntArrayElements JArray.ids) } })

/-- Lines 105-113: the dimension, the length of the first vector. -/
def readDimension (sc : Scenario) (vectors : List (List Nat)) : Prog SaveLocals Nat := do
  jni sc (JniCall.GetArrayLength JArray.vectors)
  match vectors with
  | [] => pure 0
  | first :: _ => do
    jni sc (JniCall.GetObjectArrayElement JArray.vectors 0)
    jni sc (JniCall.GetArrayLength (JArray.vector 0))
    fun s =>
      if s.pending then
        (Outcome.thrown (CppException.runtime_error
          "Exception occurred in JNI when retrieving dimension information"), s)
      else (Outcome.ret first.length, s)

/-- Line 126: `new char[size]` into the `unique_ptr`. -/
def newObjectBuffer (sc : Scenario) (size : Nat) : Prog SaveLocals (List Nat) := fun s =>
  match sc.newObjectBuffer with
  | some e => (Outcome.thrown e, s)
  | none =>
    (Outcome.ret (List.replicate size 0),
      { s with
        trace := s.trace ++ [Event.create Resource.objectBuffer],
        locals := { s.locals with objectBuffer := true } })

/-- Line 130: `dataset.push_back(new similarity::Object(ptr))`. The object is
created first; when `push_back` then throws, the object exists and `dataset`
does not hold it. -/
def pushObject (sc : Scenario) (i ptr : Nat) : Prog SaveLocals Unit := fun s =>
  match sc.newObject i with
  | some (ObjectFailure.atNew e) => (Outcome.thrown e, s)
  | some (ObjectFailure.atPushBack e) =>
    (Outcome.thrown e, { s with trace := s.trace ++ [Event.create (Resource.object ptr)] })
  | none =>
    (Outcome.ret (),
      { s with
        trace := s.trace ++ [Event.create (Resource.object ptr)],
        locals := { s.locals with dataset := s.locals.dataset ++ [ptr] } })

/-- The loop of lines 129-146 with `n` rounds to go, at index `i`; the result is
the buffer. -/
def packLoop (S : NativeSizes) (sc : Scenario) (ids : List Int) (vectors : List (List Nat))
    (vectorSizeInBytes : Nat) : Nat → Nat → Nat → List Nat → Prog SaveLocals (List Nat)
  | 0, _, _, buffer => pure buffer
  | n + 1, i, ptr, buffer => do
    pushObject sc i ptr
    let buffer ← memcpy buffer ptr ((idsMemory ids).drop (4 * i)) S.ID_SIZE
    let ptr := ptr + S.ID_SIZE
    let buffer ← memcpy buffer ptr (defaultLabelMemory S) S.LABEL_SIZE
    let ptr := ptr + S.LABEL_SIZE
    let buffer ← memcpy buffer ptr (sizeMemory vectorSizeInBytes) S.DATALENGTH_SIZE
    let ptr := ptr + S.DATALENGTH_SIZE
    jni sc (JniCall.GetObjectArrayElement JArray.vectors i)
    jni sc (JniCall.GetFloatArrayElements (JArray.vector i))
    let buffer ← memcpy buffer ptr (floatsMemory (vectors.getD i [])) vectorSizeInBytes
    jni sc (JniCall.ReleaseFloatArrayElements (JArray.vector i))
    let ptr := ptr + vectorSizeInBytes
    packLoop S sc ids vectors vectorSizeInBytes n (i + 1) ptr buffer

/-- Lines 105-146: the buffer packer. The arithmetic of line 114 and line 126 is
that of `size_t`. -/
def packVectors (S : NativeSizes) (sc : Scenario) (ids : List Int) (vectors : List (List Nat)) :
    Prog SaveLocals (List Nat) := do
  let numVectors := vectors.length
  let dim ← readDimension sc vectors
  let vectorSizeInBytes := dim * 4 % SIZE_MAX1
  let objectBuffer ← newObjectBuffer sc
    ((S.ID_SIZE + S.LABEL_SIZE + S.DATALENGTH_SIZE + vectorSizeInBytes) % SIZE_MAX1
      * numVectors % SIZE_MAX1)
  packLoop S sc ids vectors vectorSizeInBytes numVectors 0 0 objectBuffer

/-- Line 149: `index = CreateMethod(..., dataset)`. -/
def assignIndex (sc : Scenario) (spaceType : String) (buffer : List Nat) :
    Prog SaveLocals Unit := fun s =>
  match sc.CreateMethod with
  | some e =>
    (Outcome.thrown e,
      { s with
        trace := s.trace ++
          [Event.native (NativeCall.CreateMethod spaceType s.locals.dataset buffer)] })
  | none =>
    (Outcome.ret (),
      { s with
        trace := s.trace ++
          [Event.native (NativeCall.CreateMethod spaceType s.locals.dataset buffer),
           Event.create Resource.index],
        locals := { s.locals with index := true } })

/-- The loops of lines 169-171 and 177-179: `delete` every object of `dataset`. -/
def deleteDataset : Prog SaveLocals Unit := fun s =>
  (Outcome.ret (),
    { s with
      trace := s.trace ++ s.locals.dataset.map (fun p => Event.destroy (Resource.object p)) })

/-- The statement `delete index`, which does nothing for `NULL`. -/
def deleteIndex : Prog SaveLocals Unit := fun s =>
  if s.locals.index then
    (Outcome.ret (), { s with trace := s.trace ++ [Event.destroy Resource.index] })
  else (Outcome.ret (), s)

/-- The statement `delete space`, which does nothing for `NULL`. -/
def deleteSpace : Prog SaveLocals Unit := fun s =>
  if s.locals.space then
    (Outcome.ret (), { s with trace := s.trace ++ [Event.destroy Resource.space] })
  else (Outcome.ret (), s)

/-- The statements of the `try` block of `saveIndex` (lines 98-173). The string
of line 99 is built before the chars are released (line 100) and before
`has_exception_in_stack` is called (line 101); on line 163 the chars are turned
into the `std::string` that `SaveIndex` takes. -/
def saveIndex_try (S : NativeSizes) (sc : Scenario) (ids : List Int)
    (vectors : List (List Nat)) (indexPath : String) (algoParams : List String)
    (spaceType : String) : Prog SaveLocals Unit := do
  stringOfUTFChars sc JString.spaceType
  jni sc (JniCall.ReleaseStringUTFChars JString.spaceType)
  has_exception_in_stack
  assignSpace sc spaceType
  assignObjectIds sc
  let objectBuffer ← packVectors S sc ids vectors
  jni sc (JniCall.ReleaseIntArrayElements JArray.ids)
  assignIndex sc spaceType objectBuffer
  jni sc (JniCall.GetArrayLength JArray.algoParams)
  readParams sc algoParams.length 0
  native (NativeCall.CreateIndex algoParams) sc.CreateIndex
  has_exception_in_stack
  stringOfUTFChars sc JString.indexPath
  native (NativeCall.SaveIndex indexPath) sc.SaveIndex
  jni sc (JniCall.ReleaseStringUTFChars JString.indexPath)
  has_exception_in_stack
  deleteDataset
  deleteIndex
  deleteSpace

/-- Leaving the `try` block of `saveIndex`, by its end or by an exception: the
`unique_ptr` of line 126 frees the buffer it owns. -/
def leaveTry {α : Type} (body : Prog SaveLocals α) : Prog SaveLocals α := fun s =>
  match body s with
  | (Outcome.undefined, s1) => (Outcome.undefined, s1)
  | (o, s1) =>
    if s1.locals.objectBuffer then
      (o, { s1 with
            trace := s1.trace ++ [Event.destroy Resource.objectBuffer],
            locals := { s1.locals with objectBuffer := false } })
    else (o, s1)

/-- The handler of `saveIndex` (lines 175-183). -/
def saveIndex_catch (sc : Scenario) (e : CppException) : Prog SaveLocals Unit := do
  let l ← getLocals
  if l.object_ids then jni sc (JniCall.ReleaseIntArrayElements JArray.ids) else pure ()
  deleteDataset
  deleteIndex
  deleteSpace
  catch_cpp_exception_and_throw_java sc e

/-- `Java_..._KNNIndex_saveIndex` (lines 90-184). -/
def Java_com_amazon_opendistroforelasticsearch_knn_index_v2011_KNNIndex_saveIndex
    (S : NativeSizes) (sc : Scenario) (ids : List Int) (vectors : List (List Nat))
    (indexPath : String) (algoParams : List String) (spaceType : String) :
    Prog SaveLocals Unit :=
  tryCatch (leaveTry (saveIndex_try S sc ids vectors indexPath algoParams spaceType))
    (saveIndex_catch sc)

/-- The frame a bridge function is entered in from Java: nothing has happened
and nothing is pending. -/
def entry {L : Type} (live : List Nat) (locals : L) : Frame L :=
  { trace := [], pending := false, live := live, locals := locals }

/-- The locals of `saveIndex` as initialised on lines 92-95. -/
def SaveLocals.init : SaveLocals :=
  { space := false, dataset := [], index := false, object_ids := false, objectBuffer := false }

/-! ## Observations on traces -/

/-- The failures the bridge asks the runtime to raise: the class and the
message of every `ThrowNew` of a trace, in order. -/
def thrownNew (t : List Event) : List (String × String) :=
  t.filterMap (fun e =>
    match e with
    | Event.jni (JniCall.ThrowNew cls message) => some (cls, message)
    | _ => none)

/-- The calls into the native library in a trace, in order. -/
def nativeCalls (t : List Event) : List NativeCall :=
  t.filterMap (fun e =>
    match e with
    | Event.native c => some c
    | _ => none)

/-- How often the event `e` occurs in a trace. -/
def occurrences (e : Event) (t : List Event) : Nat := t.count e

/-- The caller-visible failure kinds the error translator produces. -/
inductive FailureKind where
  | ResourceExhausted
  | OperationFailed
  deriving DecidableEq, Repr

/-- The Java class a failure kind is raised as (lines 77-86). -/
def FailureKind.javaClass : FailureKind → String
  | FailureKind.ResourceExhausted => "java/io/IOException"
  | FailureKind.OperationFailed => "java/lang/Exception"

/-- The scenario in which the runtime flags nothing and no native call throws. -/
def Scenario.quiet : Scenario :=
  { raises := fun _ => false
    CreateSpace := none
    newObjectBuffer := none
    newObject := fun _ => none
    CreateMethod := none
    CreateIndex := none
    SaveIndex := none
    LoadIndex := none
    SetQueryTimeParams := none
    nullString := "basic_string::_M_construct null not valid" }

/-- The sizes of nmslib on a 64-bit platform: `IdType` and `LabelType` are
32-bit integers and the length field is a `size_t`. -/
def NativeSizes.nmslib : NativeSizes := { ID_SIZE := 4, LABEL_SIZE := 4, DATALENGTH_SIZE := 8 }


/-! ## Observations on the result queue -/

/-- The queue after `i` removals. -/
def popN {Q : Type} (ops : KNNQueueOps Q) : Nat → Q → Q
  | 0, q => q
  | i + 1, q => popN ops i (ops.Pop q).2

/-- The `i`-th entry removed from the queue by repeatedly taking the current
top: the id of the object removed and the distance the top had then. -/
def removedAt {Q : Type} (ops : KNNQueueOps Q) (q : Q) (i : Nat) : KNNQueryResult :=
  ⟨(ops.Pop (popN ops i q)).1, ops.TopDistance (popN ops i q)⟩

/-- A queue given by its entries in the order of removal, the top first. The
bridge never asks an empty queue for its top. -/
def listQueue : KNNQueueOps (List KNNQueryResult) :=
  { Size := fun q => q.length
    TopDistance := fun q => (q.headD ⟨0, 0⟩).distance
    Pop := fun q => ((q.headD ⟨0, 0⟩).id, q.tail) }

/-- An entry of least distance among `e` and `es`, the first of them. -/
def nearest : KNNQueryResult → List KNNQueryResult → KNNQueryResult
  | e, [] => e
  | e, x :: xs => if x.distance < e.distance then nearest x xs else nearest e xs

/-- Modelled from the spec: the native result queue `similarity::KNNQueue<float>`,
which is not part of the source. Section 4.3 has the results "ordered
nearest-first by the native layer's own result-ranking" and drained by
"repeatedly take the current nearest and remove it": the queue holds entries
in any order, its top is an entry of least distance, and `Pop` removes that
entry. -/
def nearestFirstQueue : KNNQueueOps (List KNNQueryResult) :=
  { Size := fun q => q.length
    TopDistance := fun q =>
      match q with
      | [] => 0
      | e :: es => (nearest e es).distance
    Pop := fun q =>
      match q with
      | [] => (0, [])
      | e :: es => ((nearest e es).id, (e :: es).erase (nearest e es)) }

/-! ## Auxiliary definitions for the proofs -/

/-- Whether the runtime flags a failure at one of the JNI calls of `t`. -/
def raisedIn (sc : Scenario) (t : List Event) : Bool :=
  t.any (fun e =>
    match e with
    | Event.jni c => sc.raises c
    | _ => false)

/-- The frame after the events `t`, none of which throws. -/
def advance {L : Type} (sc : Scenario) (t : List Event) (s : Frame L) : Frame L :=
  { s with trace := s.trace ++ t, pending := s.pending || raisedIn sc t }

/-- The array the drain loop leaves. -/
def drainResults {Q : Type} (ops : KNNQueueOps Q) :
    Nat → Nat → Q → List (Option KNNQueryResult) → List (Option KNNQueryResult)
  | 0, _, _, results => results
  | n + 1, i, q, results =>
    drainResults ops n (i + 1) (ops.Pop q).2
      (results.set i (some ⟨(ops.Pop q).1, ops.TopDistance q⟩))

/-- The events of the drain loop. -/
def drainEvents {Q : Type} (ops : KNNQueueOps Q) : Nat → Nat → Q → List Event
  | 0, _, _ => []
  | n + 1, i, q =>
    Event.jni (JniCall.NewObject (ops.Pop q).1 (ops.TopDistance q))
      :: Event.jni (JniCall.SetObjectArrayElement i)
      :: drainEvents ops n (i + 1) (ops.Pop q).2

/-- The events of the loop that reads the parameter strings. -/
def readParamsEvents : Nat → Nat → List Event
  | 0, _ => []
  | n + 1, i =>
    Event.jni (JniCall.GetObjectArrayElement JArray.algoParams i)
      :: Event.jni (JniCall.GetStringUTFChars (JString.algoParam i))
      :: Event.jni (JniCall.ReleaseStringUTFChars (JString.algoParam i))
      :: readParamsEvents n (i + 1)

/-- The events of lines 201-208 for the queue `result`. -/
def resultEvents {Q : Type} (ops : KNNQueueOps Q) (result : Q) : List Event :=
  [Event.jni (JniCall.FindClass "com/amazon/opendistroforelasticsearch/knn/index/KNNQueryResult"),
   Event.jni (JniCall.GetMethodID "<init>" "(IF)V"),
   Event.jni (JniCall.NewObjectArray (ops.Size result))]
    ++ drainEvents ops (ops.Size result) 0 result


/-! ## Observations on resources and failures -/

/-- Whether a resource is one of those the build path has to release: the
distance space, the index, a packed record object. -/
def Resource.isBuildResource : Resource → Bool
  | Resource.space => true
  | Resource.index => true
  | Resource.object _ => true
  | _ => false

/-- The build resources created in a trace, in the order of creation. -/
def acquired (t : List Event) : List Resource :=
  t.filterMap (fun e =>
    match e with
    | Event.create r => if r.isBuildResource then some r else none
    | _ => none)

/-- The build resources destroyed in a trace, in the order of destruction. -/
def released (t : List Event) : List Resource :=
  t.filterMap (fun e =>
    match e with
    | Event.destroy r => if r.isBuildResource then some r else none
    | _ => none)

/-- The order in which `saveIndex` releases what it has acquired: the record
objects in the order of their creation, then the index, then the space. -/
def releaseOrder (acq : List Resource) : List Resource :=
  acq.filter (fun r => match r with | Resource.object _ => true | _ => false)
    ++ acq.filter (fun r => r == Resource.index)
    ++ acq.filter (fun r => r == Resource.space)

/-- The part of a trace from the first failure raised by the bridge on. -/
def sinceRaise (t : List Event) : List Event :=
  t.dropWhile (fun e =>
    match e with
    | Event.jni (JniCall.ThrowNew _ _) => false
    | _ => true)

/-- A specification of a program: from a frame with `P`, a return ends in a
frame with `Q` and a throw in a frame with `E`. -/
def Triple {L α : Type} (P : Frame L → Prop) (p : Prog L α) (Q : α → Frame L → Prop)
    (E : Frame L → Prop) : Prop :=
  ∀ s, P s →
    match p s with
    | (Outcome.ret a, s1) => Q a s1
    | (Outcome.thrown _, s1) => E s1
    | (Outcome.undefined, _) => True

/-- What the handler of `saveIndex` will release, as the locals tell it. -/
def SaveLocals.owned (l : SaveLocals) : List Resource :=
  (if l.space then [Resource.space] else [])
    ++ l.dataset.map Resource.object
    ++ (if l.index then [Resource.index] else [])

/-- The invariant of the `try` block of `saveIndex` before its cleanup: the
locals know exactly the build resources created so far, nothing is released
yet and nothing is raised yet. -/
def BuildInv (s : Frame SaveLocals) : Prop :=
  acquired s.trace = s.locals.owned ∧ released s.trace = [] ∧ thrownNew s.trace = []

/-- Two frames agree on what the invariant of `saveIndex` looks at. -/
def SameBuild (s s1 : Frame SaveLocals) : Prop :=
  acquired s1.trace = acquired s.trace ∧ released s1.trace = released s.trace ∧
  thrownNew s1.trace = thrownNew s.trace ∧
  s1.locals.space = s.locals.space ∧ s1.locals.dataset = s.locals.dataset ∧
  s1.locals.index = s.locals.index

/-- A property of frames that only looks at what the invariant looks at. -/
def BuildStable (P : Frame SaveLocals → Prop) : Prop :=
  ∀ s s1, SameBuild s s1 → P s → P s1

/-- The invariant before line 102: nothing is acquired. -/
def BuildStart (s : Frame SaveLocals) : Prop :=
  BuildInv s ∧ s.locals.space = false ∧ s.locals.dataset = [] ∧ s.locals.index = false

/-- The invariant between line 102 and line 149: there is no index yet. -/
def BuildPacking (s : Frame SaveLocals) : Prop :=
  BuildInv s ∧ s.locals.index = false

/-- The state of the resources when `saveIndex` is over: everything acquired
is released, once, in the order of `releaseOrder`, and nothing is released
after a failure is raised. -/
def BuildReleased (s : Frame SaveLocals) : Prop :=
  released s.trace = releaseOrder (acquired s.trace) ∧
  (released s.trace).Perm (acquired s.trace) ∧
  released (sinceRaise s.trace) = []

/-- The events of the cleanup of `saveIndex` (lines 169-173 and 177-181). -/
def cleanupEvents (l : SaveLocals) : List Event :=
  l.dataset.map (fun p => Event.destroy (Resource.object p))
    ++ (if l.index then [Event.destroy Resource.index] else [])
    ++ (if l.space then [Event.destroy Resource.space] else [])

/-- The state of the resources after the cleanup and before the error
translator: as `BuildReleased`, and nothing is raised yet. -/
def BuildCleaned (s : Frame SaveLocals) : Prop :=
  released s.trace = releaseOrder (acquired s.trace) ∧
  (released s.trace).Perm (acquired s.trace) ∧
  thrownNew s.trace = []


/-! ## Auxiliary definitions for the buffer packer -/

/-- The buffer `b` with the bytes `x` written at offset `d`. -/
def writeAt (b : List Nat) (d : Nat) (x : List Nat) : List Nat :=
  b.take d ++ x ++ b.drop (d + x.length)

/-- The size of one record for a payload of `vectorSizeInBytes` bytes. -/
def recordSize (S : NativeSizes) (vectorSizeInBytes : Nat) : Nat :=
  S.ID_SIZE + S.LABEL_SIZE + S.DATALENGTH_SIZE + vectorSizeInBytes

/-- The bytes one round of the packing loop copies for the record at index `i`. -/
def copiedRecord (S : NativeSizes) (ids : List Int) (vectors : List (List Nat))
    (vectorSizeInBytes : Nat) (i : Nat) : List Nat :=
  ((idsMemory ids).drop (4 * i)).take S.ID_SIZE
    ++ (defaultLabelMemory S).take S.LABEL_SIZE
    ++ (sizeMemory vectorSizeInBytes).take S.DATALENGTH_SIZE
    ++ (floatsMemory (vectors.getD i [])).take vectorSizeInBytes

/-- The events of one round of the packing loop. -/
def packRoundEvents (i ptr : Nat) : List Event :=
  [Event.create (Resource.object ptr),
   Event.jni (JniCall.GetObjectArrayElement JArray.vectors i),
   Event.jni (JniCall.GetFloatArrayElements (JArray.vector i)),
   Event.jni (JniCall.ReleaseFloatArrayElements (JArray.vector i))]

/-- The events of `n` rounds of the packing loop from index `i` on, for records
of `r` bytes. -/
def packEvents (r : Nat) : Nat → Nat → List Event
  | 0, _ => []
  | n + 1, i => packRoundEvents i (i * r) ++ packEvents r n (i + 1)

/-- The frame after events that create the record views at the offsets `ptrs`. -/
def packed (sc : Scenario) (t : List Event) (ptrs : List Nat) (s : Frame SaveLocals) :
    Frame SaveLocals :=
  { advance sc t s with locals := { s.locals with dataset := s.locals.dataset ++ ptrs } }

/-- The events of lines 105-109. -/
def dimensionEvents (vectors : List (List Nat)) : List Event :=
  match vectors with
  | [] => [Event.jni (JniCall.GetArrayLength JArray.vectors)]
  | _ :: _ =>
    [Event.jni (JniCall.GetArrayLength JArray.vectors),
     Event.jni (JniCall.GetObjectArrayElement JArray.vectors 0),
     Event.jni (JniCall.GetArrayLength (JArray.vector 0))]

/-- The record the claim describes for index `i` and dimension `D`: the
identifier, the label `-1`, the payload length `4 * D` and the first `D`
components of the vector. -/
def specRecord (S : NativeSizes) (ids : List Int) (vectors : List (List Nat)) (D i : Nat) :
    List Nat :=
  jintBytes (ids.getD i 0)
    ++ List.replicate S.LABEL_SIZE 255
    ++ leBytes 8 (4 * D)
    ++ floatsMemory ((vectors.getD i []).take D)

/-- The buffer after `n` rounds of the packing loop from index `i` on. -/
def packedBuffer (S : NativeSizes) (ids : List Int) (vectors : List (List Nat))
    (vectorSizeInBytes : Nat) : Nat → Nat → List Nat → List Nat
  | 0, _, b => b
  | n + 1, i, b =>
    packedBuffer S ids vectors vectorSizeInBytes n (i + 1)
      (writeAt b (i * recordSize S vectorSizeInBytes)
        (copiedRecord S ids vectors vectorSizeInBytes i))

/-- The offsets of the record views of `n` rounds from index `i` on. -/
def packOffsets (r : Nat) : Nat → Nat → List Nat
  | 0, _ => []
  | n + 1, i => i * r :: packOffsets r n (i + 1)

/-- The frame once the `unique_ptr` of line 126 owns the buffer. -/
def bufferOwned (s : Frame SaveLocals) : Frame SaveLocals :=
  { s with locals := { s.locals with objectBuffer := true } }

/-- The dimension line 109 reads: the length of the first vector, 0 for an
empty batch. -/
def dimensionOf (vectors : List (List Nat)) : Nat := (vectors.headD []).length


/-! ## Running programs -/

theorem advance_advance {L : Type} (sc : Scenario) (t u : List Event) (s : Frame L) :
    advance sc u (advance sc t s) = advance sc (t ++ u) s := by
  simp [advance, raisedIn, List.any_append, Bool.or_assoc]

theorem advance_nil {L : Type} (sc : Scenario) (s : Frame L) : advance sc [] s = s := by
  simp [advance, raisedIn]

theorem jni_run {L : Type} (sc : Scenario) (c : JniCall) (s : Frame L) :
    jni sc c s = (Outcome.ret (), advance sc [Event.jni c] s) := by
  simp [jni, advance, raisedIn]

theorem seq_run {L α β : Type} (p : Prog L α) (f : α → Prog L β) (s : Frame L) :
    (p >>= f) s =
      match p s with
      | (Outcome.ret a, s1) => f a s1
      | (Outcome.thrown e, s1) => (Outcome.thrown e, s1)
      | (Outcome.undefined, s1) => (Outcome.undefined, s1) := rfl

theorem seq_ret {L α β : Type} {p : Prog L α} {f : α → Prog L β} {s s1 : Frame L} {a : α}
    (h : p s = (Outcome.ret a, s1)) : (p >>= f) s = f a s1 := by
  rw [seq_run, h]

theorem seq_thrown {L α β : Type} {p : Prog L α} {f : α → Prog L β} {s s1 : Frame L}
    {e : CppException} (h : p s = (Outcome.thrown e, s1)) :
    (p >>= f) s = (Outcome.thrown e, s1) := by
  rw [seq_run, h]

theorem pure_run {L α : Type} (a : α) (s : Frame L) :
    (pure a : Prog L α) s = (Outcome.ret a, s) := rfl

theorem stringOfUTFChars_run {L : Type} (sc : Scenario) (x : JString) (s : Frame L) :
    stringOfUTFChars sc x s =
      if sc.raises (JniCall.GetStringUTFChars x) then
        (Outcome.thrown (CppException.exception sc.nullString),
          advance sc [Event.jni (JniCall.GetStringUTFChars x)] s)
      else (Outcome.ret (), advance sc [Event.jni (JniCall.GetStringUTFChars x)] s) := by
  unfold stringOfUTFChars
  rw [seq_ret (jni_run sc _ s)]
  split <;> rfl

theorem seq_string_ret {L β : Type} (sc : Scenario) (x : JString) (f : Unit → Prog L β)
    (s : Frame L) (h : sc.raises (JniCall.GetStringUTFChars x) = false) :
    (stringOfUTFChars sc x >>= f) s
      = f () (advance sc [Event.jni (JniCall.GetStringUTFChars x)] s) :=
  seq_ret (by rw [stringOfUTFChars_run, h]; rfl)

theorem has_exception_run {L : Type} (s : Frame L) :
    has_exception_in_stack s =
      if s.pending then (Outcome.thrown (CppException.runtime_error "Exception Occured"), s)
      else (Outcome.ret (), s) := rfl

theorem thrownNew_append (t u : List Event) : thrownNew (t ++ u) = thrownNew t ++ thrownNew u := by
  simp [thrownNew, List.filterMap_append]

theorem nativeCalls_append (t u : List Event) :
    nativeCalls (t ++ u) = nativeCalls t ++ nativeCalls u := by
  simp [nativeCalls, List.filterMap_append]

theorem pending_advance_quiet {L : Type} (sc : Scenario) (hq : ∀ c, sc.raises c = false)
    (t : List Event) (s : Frame L) : (advance sc t s).pending = s.pending := by
  have : raisedIn sc t = false := by
    simp only [raisedIn, List.any_eq_false]
    intro e _
    cases e <;> simp [hq]
  simp [advance, this]

/-! ## `queryIndex`: the drain loop -/

theorem removedAt_succ {Q : Type} (ops : KNNQueueOps Q) (q : Q) (i : Nat) :
    removedAt ops q (i + 1) = removedAt ops (ops.Pop q).2 i := rfl

theorem drain_run {L Q : Type} (sc : Scenario) (ops : KNNQueueOps Q) :
    ∀ (n i : Nat) (q : Q) (results : List (Option KNNQueryResult)) (s : Frame L),
      drain sc ops n i q results s
        = (Outcome.ret (drainResults ops n i q results), advance sc (drainEvents ops n i q) s) := by
  intro n
  induction n with
  | zero =>
    intro i q results s
    simp [drain, drainResults, drainEvents, advance_nil, pure_run]
  | succ n ih =>
    intro i q results s
    simp only [drain, drainResults, drainEvents]
    rw [seq_ret (jni_run sc _ s), seq_ret (jni_run sc _ _), ih, advance_advance, advance_advance]
    rfl

theorem drainResults_get {Q : Type} (ops : KNNQueueOps Q) :
    ∀ (n i : Nat) (q : Q) (results : List (Option KNNQueryResult)) (j : Nat),
      i + n ≤ results.length →
      (drainResults ops n i q results)[j]? =
        if i ≤ j ∧ j < i + n then some (some (removedAt ops q (j - i))) else results[j]? := by
  intro n
  induction n with
  | zero =>
    intro i q results j _
    rw [if_neg (by omega)]
    rfl
  | succ n ih =>
    intro i q results j hlen
    simp only [drainResults]
    rw [ih (i + 1) _ _ j (by simp; omega)]
    by_cases hj : i = j
    · subst hj
      have h3 : i < results.length := by omega
      rw [if_neg (by omega), if_pos (by omega)]
      simp [h3, removedAt, popN]
    · by_cases hin : i ≤ j ∧ j < i + (n + 1)
      · have h2 : j - i = (j - (i + 1)) + 1 := by omega
        rw [if_pos (by omega), if_pos hin, h2, removedAt_succ]
      · rw [if_neg (by omega), if_neg hin]
        simp [List.getElem?_set, hj]

theorem thrownNew_drainEvents {Q : Type} (ops : KNNQueueOps Q) :
    ∀ (n i : Nat) (q : Q), thrownNew (drainEvents ops n i q) = [] := by
  intro n
  induction n with
  | zero => intro i q; rfl
  | succ n ih =>
    intro i q
    show thrownNew ([_, _] ++ drainEvents ops n (i + 1) (ops.Pop q).2) = []
    rw [thrownNew_append, ih]
    rfl

theorem nativeCalls_drainEvents {Q : Type} (ops : KNNQueueOps Q) :
    ∀ (n i : Nat) (q : Q), nativeCalls (drainEvents ops n i q) = [] := by
  intro n
  induction n with
  | zero => intro i q; rfl
  | succ n ih =>
    intro i q
    show nativeCalls ([_, _] ++ drainEvents ops n (i + 1) (ops.Pop q).2) = []
    rw [nativeCalls_append, ih]
    rfl

theorem native_run_none {L : Type} (sc : Scenario) (c : NativeCall) (s : Frame L) :
    native c none s = (Outcome.ret (), advance sc [Event.native c] s) := by
  simp [native, advance, raisedIn]

theorem native_run_some {L : Type} (sc : Scenario) (c : NativeCall) (e : CppException)
    (s : Frame L) :
    native c (some e) s = (Outcome.thrown e, advance sc [Event.native c] s) := by
  simp [native, advance, raisedIn]

theorem owned_run {L α : Type} (sc : Scenario) (r : Resource) (body : Prog L α) (s : Frame L) :
    owned r body s =
      match body (advance sc [Event.create r] s) with
      | (Outcome.undefined, s1) => (Outcome.undefined, s1)
      | (o, s1) => (o, advance sc [Event.destroy r] s1) := by
  have h1 : ({ s with trace := s.trace ++ [Event.create r] } : Frame L)
      = advance sc [Event.create r] s := by simp [advance, raisedIn]
  have h2 : ∀ s1 : Frame L, ({ s1 with trace := s1.trace ++ [Event.destroy r] } : Frame L)
      = advance sc [Event.destroy r] s1 := by intro s1; simp [advance, raisedIn]
  unfold owned
  rw [h1]
  split <;> simp_all

theorem owned_fst {L α : Type} (r : Resource) (body : Prog L α) (s : Frame L) :
    (owned r body s).1 = (body { s with trace := s.trace ++ [Event.create r] }).1 := by
  unfold owned
  split <;> simp_all

theorem trace_advance {L : Type} (sc : Scenario) (t : List Event) (s : Frame L) :
    (advance sc t s).trace = s.trace ++ t := rfl

theorem live_advance {L : Type} (sc : Scenario) (t : List Event) (s : Frame L) :
    (advance sc t s).live = s.live := rfl

theorem queryIndex_results_run {L Q : Type} (sc : Scenario) (ops : KNNQueueOps Q) (result : Q)
    (s : Frame L) :
    queryIndex_results sc ops result s =
      if s.pending then (Outcome.thrown (CppException.runtime_error "Exception Occured"), s)
      else if (advance sc (resultEvents ops result) s).pending then
        (Outcome.thrown (CppException.runtime_error "Exception Occured"),
          advance sc (resultEvents ops result) s)
      else
        (Outcome.ret (some (drainResults ops (ops.Size result) 0 result
            (List.replicate (ops.Size result) none))),
          advance sc (resultEvents ops result) s) := by
  unfold queryIndex_results
  by_cases hp : s.pending = true
  · rw [seq_thrown (by rw [has_exception_run, if_pos hp]), if_pos hp]
  · rw [seq_ret (by rw [has_exception_run, if_neg hp]), if_neg hp]
    rw [seq_ret (jni_run sc _ _), seq_ret (jni_run sc _ _), seq_ret (jni_run sc _ _),
      seq_ret (drain_run sc ops _ _ _ _ _)]
    simp only [advance_advance, List.append_assoc, List.singleton_append, List.cons_append,
      List.nil_append]
    have hev : (Event.jni (JniCall.FindClass
          "com/amazon/opendistroforelasticsearch/knn/index/KNNQueryResult")
        :: Event.jni (JniCall.GetMethodID "<init>" "(IF)V")
        :: Event.jni (JniCall.NewObjectArray (ops.Size result))
        :: drainEvents ops (ops.Size result) 0 result) = resultEvents ops result := rfl
    rw [hev]
    by_cases hp1 : (advance sc (resultEvents ops result) s).pending = true
    · rw [seq_thrown (by rw [has_exception_run, if_pos hp1]), if_pos hp1]
    · rw [seq_ret (by rw [has_exception_run, if_neg hp1]), if_neg hp1]
      rfl

theorem thrownNew_resultEvents {Q : Type} (ops : KNNQueueOps Q) (result : Q) :
    thrownNew (resultEvents ops result) = [] := by
  unfold resultEvents
  rw [thrownNew_append, thrownNew_drainEvents]
  rfl

/-! ## The error translator -/

theorem JavaException_run {L : Type} (sc : Scenario) (type message : String) (s : Frame L) :
    JavaException sc type message s =
      if sc.raises (JniCall.FindClass type) then
        (Outcome.ret (), { s with trace := s.trace ++ [Event.jni (JniCall.FindClass type)],
                                  pending := true })
      else
        (Outcome.ret (),
          { s with
            trace := s.trace ++ [Event.jni (JniCall.FindClass type),
                                 Event.jni (JniCall.ThrowNew type message)],
            pending := s.pending || sc.raises (JniCall.ThrowNew type message) }) := by
  unfold JavaException
  by_cases h : sc.raises (JniCall.FindClass type) = true
  · simp [h, bind, seq, jni, pure, ret]
  · simp [h, bind, seq, jni, pure, ret]

/-- C8: the error translator turns every native failure into exactly one raised
Java failure. With the two Java classes found by `FindClass`, `std::bad_alloc`
is raised as the class of `ResourceExhausted` with its own message, a
`std::runtime_error` or other `std::exception` as the class of
`OperationFailed` with the native message unchanged, and anything else as
`OperationFailed` with the fixed text; in every case exactly one `ThrowNew` is
added to the trace. -/
theorem C8_error_translation {L : Type} (sc : Scenario) (e : CppException) (s : Frame L)
    (hio : sc.raises (JniCall.FindClass "java/io/IOException") = false)
    (hEx : sc.raises (JniCall.FindClass "java/lang/Exception") = false) :
    (catch_cpp_exception_and_throw_java sc e s).1 = Outcome.ret () ∧
    (thrownNew (catch_cpp_exception_and_throw_java sc e s).2.trace).length
      = (thrownNew s.trace).length + 1 ∧
    (∀ what, e = CppException.bad_alloc what →
      thrownNew (catch_cpp_exception_and_throw_java sc e s).2.trace
        = thrownNew s.trace ++ [(FailureKind.ResourceExhausted.javaClass, what)]) ∧
    (∀ what, e = CppException.runtime_error what ∨ e = CppException.exception what →
      thrownNew (catch_cpp_exception_and_throw_java sc e s).2.trace
        = thrownNew s.trace ++ [(FailureKind.OperationFailed.javaClass, what)]) ∧
    (e = CppException.non_standard →
      thrownNew (catch_cpp_exception_and_throw_java sc e s).2.trace
        = thrownNew s.trace ++ [(FailureKind.OperationFailed.javaClass,
            "Unknown exception occured")]) := by
  cases e <;>
    simp [catch_cpp_exception_and_throw_java, JavaException_run, hio, hEx, thrownNew_append,
      thrownNew, FailureKind.javaClass]

/-- Witness of C8: a `std::bad_alloc` in the entry frame, with both classes
found. -/
theorem C8_error_translation_witness :
    (catch_cpp_exception_and_throw_java Scenario.quiet (CppException.bad_alloc "std::bad_alloc")
        (entry [] ())).1 = Outcome.ret () ∧
    thrownNew (catch_cpp_exception_and_throw_java Scenario.quiet
        (CppException.bad_alloc "std::bad_alloc") (entry [] ())).2.trace
      = [("java/io/IOException", "std::bad_alloc")] :=
  ⟨(C8_error_translation Scenario.quiet (CppException.bad_alloc "std::bad_alloc") (entry [] ())
      rfl rfl).1,
   (C8_error_translation Scenario.quiet (CppException.bad_alloc "std::bad_alloc") (entry [] ())
      rfl rfl).2.2.1 "std::bad_alloc" rfl⟩

/-! ## `gc` -/

/-- C9: with no failure pending, `gc` of the null handle changes nothing (no
event, no wrapper released, nothing raised), and `gc` of a live handle destroys
the index and the space of that wrapper and the wrapper itself, and nothing
else. -/
theorem C9_gc_null_and_live (sc : Scenario) (s : Frame Unit) (h : Nat)
    (hpending : s.pending = false) (hnonnull : h ≠ 0) (hlive : h ∈ s.live) :
    Java_com_amazon_opendistroforelasticsearch_knn_index_v2011_KNNIndex_gc sc 0 s
      = (Outcome.ret (), s) ∧
    Java_com_amazon_opendistroforelasticsearch_knn_index_v2011_KNNIndex_gc sc h s
      = (Outcome.ret (),
          { s with
            trace := s.trace ++ [Event.destroy Resource.index, Event.destroy Resource.space,
                                 Event.destroy (Resource.wrapper h)],
            live := s.live.erase h }) := by
  constructor
  · simp [Java_com_amazon_opendistroforelasticsearch_knn_index_v2011_KNNIndex_gc, Prog.tryCatch,
      bind, seq, has_exception_in_stack, deleteIndexWrapper, hpending]
  · simp [Java_com_amazon_opendistroforelasticsearch_knn_index_v2011_KNNIndex_gc, Prog.tryCatch,
      bind, seq, has_exception_in_stack, deleteIndexWrapper, hpending, hnonnull, hlive]

/-- Witness of C9: the wrappers at 5 and 9 are live and 5 is collected. -/
theorem C9_gc_null_and_live_witness :
    (Java_com_amazon_opendistroforelasticsearch_knn_index_v2011_KNNIndex_gc Scenario.quiet 0
        (entry [5, 9] ())).2.live = [5, 9] ∧
    (Java_com_amazon_opendistroforelasticsearch_knn_index_v2011_KNNIndex_gc Scenario.quiet 5
        (entry [5, 9] ())).2.live = [9] := by
  have h := C9_gc_null_and_live Scenario.quiet (entry [5, 9] ()) 5 rfl (by decide) (by decide)
  constructor
  · rw [h.1]; rfl
  · rw [h.2]; rfl

/-! ## `init` -/

/-- C4 fails on the code: when `LoadIndex` throws, the handler tests the
`indexWrapper` of line 219, which is still `NULL` because line 231 declares a
new variable. The wrapper built on line 231 (here at address 1) is created and
never destroyed, so it stays among the live wrappers, although `init` returns 0
and raises the translated failure. -/
theorem C4_init_leaks_wrapper :
    (Java_com_amazon_opendistroforelasticsearch_knn_index_v2011_KNNIndex_init
        { Scenario.quiet with LoadIndex := some (CppException.runtime_error "Cannot open file") }
        "index.hnsw" [] "l2" (entry [] ⟨0⟩)).1 = Outcome.ret 0 ∧
    (Java_com_amazon_opendistroforelasticsearch_knn_index_v2011_KNNIndex_init
        { Scenario.quiet with LoadIndex := some (CppException.runtime_error "Cannot open file") }
        "index.hnsw" [] "l2" (entry [] ⟨0⟩)).2.live = [1] ∧
    (Java_com_amazon_opendistroforelasticsearch_knn_index_v2011_KNNIndex_init
        { Scenario.quiet with LoadIndex := some (CppException.runtime_error "Cannot open file") }
        "index.hnsw" [] "l2" (entry [] ⟨0⟩)).2.trace =
      [Event.jni (JniCall.GetStringUTFChars JString.indexPath),
       Event.jni (JniCall.ReleaseStringUTFChars JString.indexPath),
       Event.jni (JniCall.GetStringUTFChars JString.spaceType),
       Event.jni (JniCall.ReleaseStringUTFChars JString.spaceType),
       Event.native (NativeCall.CreateSpace "l2"),
       Event.create Resource.space,
       Event.native (NativeCall.CreateMethod "l2" [] []),
       Event.create Resource.index,
       Event.create (Resource.wrapper 1),
       Event.native (NativeCall.LoadIndex "index.hnsw"),
       Event.jni (JniCall.FindClass "java/lang/Exception"),
       Event.jni (JniCall.ThrowNew "java/lang/Exception" "Cannot open file")] := by
  refine ⟨?_, ?_, ?_⟩ <;> decide

/-! ## `saveIndex`: views of the caller runtime -/

/-- C6 fails on the code: when `SaveIndex` throws, the identifier array, released
on line 148, is released a second time by the handler (line 176, `object_ids`
is not reset), and the index-path string obtained on line 162 is never released
(line 164 is skipped). -/
theorem C6_saveIndex_views_on_SaveIndex_failure :
    occurrences (Event.jni (JniCall.GetIntArrayElements JArray.ids))
      (Java_com_amazon_opendistroforelasticsearch_knn_index_v2011_KNNIndex_saveIndex
        NativeSizes.nmslib
        { Scenario.quiet with SaveIndex := some (CppException.runtime_error "Cannot open file") }
        [7] [[1065353216, 1073741824]] "/no/such/dir/index.hnsw" [] "l2"
        (entry [] SaveLocals.init)).2.trace = 1 ∧
    occurrences (Event.jni (JniCall.ReleaseIntArrayElements JArray.ids))
      (Java_com_amazon_opendistroforelasticsearch_knn_index_v2011_KNNIndex_saveIndex
        NativeSizes.nmslib
        { Scenario.quiet with SaveIndex := some (CppException.runtime_error "Cannot open file") }
        [7] [[1065353216, 1073741824]] "/no/such/dir/index.hnsw" [] "l2"
        (entry [] SaveLocals.init)).2.trace = 2 ∧
    occurrences (Event.jni (JniCall.GetStringUTFChars JString.indexPath))
      (Java_com_amazon_opendistroforelasticsearch_knn_index_v2011_KNNIndex_saveIndex
        NativeSizes.nmslib
        { Scenario.quiet with SaveIndex := some (CppException.runtime_error "Cannot open file") }
        [7] [[1065353216, 1073741824]] "/no/such/dir/index.hnsw" [] "l2"
        (entry [] SaveLocals.init)).2.trace = 1 ∧
    occurrences (Event.jni (JniCall.ReleaseStringUTFChars JString.indexPath))
      (Java_com_amazon_opendistroforelasticsearch_knn_index_v2011_KNNIndex_saveIndex
        NativeSizes.nmslib
        { Scenario.quiet with SaveIndex := some (CppException.runtime_error "Cannot open file") }
        [7] [[1065353216, 1073741824]] "/no/such/dir/index.hnsw" [] "l2"
        (entry [] SaveLocals.init)).2.trace = 0 := by
  refine ⟨?_, ?_, ?_, ?_⟩ <;> decide!


theorem seq_fst_ret {L α β : Type} {p : Prog L α} {f : α → Prog L β} {s : Frame L} {b : β}
    (h : ((p >>= f) s).1 = Outcome.ret b) :
    ∃ a s1, p s = (Outcome.ret a, s1) ∧ (f a s1).1 = Outcome.ret b := by
  rw [seq_run] at h
  split at h
  · next a s1 heq => exact ⟨a, s1, heq, h⟩
  · simp at h
  · simp at h

theorem tryCatch_run {L α : Type} (body : Prog L α) (handler : CppException → Prog L α)
    (s : Frame L) :
    Prog.tryCatch body handler s =
      match body s with
      | (Outcome.thrown e, s1) => handler e s1
      | r => r := rfl

theorem catch_cpp_exception_and_throw_java_fst {L : Type} (sc : Scenario) (e : CppException)
    (s : Frame L) : (catch_cpp_exception_and_throw_java sc e s).1 = Outcome.ret () := by
  cases e <;> simp only [catch_cpp_exception_and_throw_java, JavaException_run] <;> split <;> rfl

/-- A result array comes only from a queue that `Search` has left, and it is
the array the drain loop builds. -/
theorem queryIndex_try_ret {L Q : Type} (sc : Scenario) (ops : KNNQueueOps Q)
    (search : Except CppException Q) (h : Nat) (k : Int) (s : Frame L)
    (rs : List (Option KNNQueryResult))
    (hret : (queryIndex_try sc ops search h k s).1 = Outcome.ret (some rs)) :
    ∃ result, search = Except.ok result ∧
      rs = drainResults ops (ops.Size result) 0 result
            (List.replicate (ops.Size result) none) := by
  unfold queryIndex_try at hret
  rw [seq_ret (jni_run sc _ _), seq_ret (jni_run sc _ _), owned_fst,
    seq_ret (jni_run sc _ _)] at hret
  obtain ⟨_, s1, _, hret⟩ := seq_fst_ret hret
  obtain ⟨_, s2, _, hret⟩ := seq_fst_ret hret
  cases search with
  | error e =>
    simp only [] at hret
    rw [seq_thrown (native_run_some sc _ e _)] at hret
    simp at hret
  | ok result =>
    refine ⟨result, rfl, ?_⟩
    simp only [] at hret
    rw [seq_ret (native_run_none sc _ _), owned_fst, queryIndex_results_run] at hret
    split at hret
    · simp at hret
    · split at hret
      · simp at hret
      · simpa using hret.symm

theorem seq_jni {L β : Type} (sc : Scenario) (c : JniCall) (f : Unit → Prog L β) (s : Frame L) :
    (jni sc c >>= f) s = f () (advance sc [Event.jni c] s) :=
  seq_ret (jni_run sc c s)

theorem seq_native_none {L β : Type} (sc : Scenario) (c : NativeCall) (f : Unit → Prog L β)
    (s : Frame L) : (native c none >>= f) s = f () (advance sc [Event.native c] s) :=
  seq_ret (native_run_none sc c s)

theorem seq_has_exception_ret {L β : Type} (f : Unit → Prog L β) (s : Frame L)
    (h : s.pending = false) : (has_exception_in_stack >>= f) s = f () s :=
  seq_ret (by rw [has_exception_run, h]; rfl)

theorem seq_derefIndexWrapper {L β : Type} (h : Nat) (f : Unit → Prog L β) (s : Frame L)
    (hlive : h ∈ s.live) : (derefIndexWrapper h >>= f) s = f () s :=
  seq_ret (by simp [derefIndexWrapper, hlive])

/-- With nothing pending, a live handle and a runtime that flags nothing, the
`try` block of `queryIndex` returns the drained array. -/
theorem queryIndex_try_quiet {L Q : Type} (sc : Scenario) (ops : KNNQueueOps Q) (result : Q)
    (h : Nat) (k : Int) (s : Frame L) (hlive : h ∈ s.live) (hpending : s.pending = false)
    (hquiet : ∀ c, sc.raises c = false) :
    ∃ t, queryIndex_try sc ops (Except.ok result) h k s =
      (Outcome.ret (some (drainResults ops (ops.Size result) 0 result
          (List.replicate (ops.Size result) none))), advance sc t s) ∧
      thrownNew t = [] := by
  refine ⟨[Event.jni (JniCall.GetFloatArrayElements JArray.queryVector),
      Event.jni (JniCall.GetArrayLength JArray.queryVector),
      Event.create Resource.queryObject,
      Event.jni (JniCall.ReleaseFloatArrayElements JArray.queryVector),
      Event.native (NativeCall.Search k),
      Event.create Resource.resultQueue] ++ resultEvents ops result
      ++ [Event.destroy Resource.resultQueue, Event.destroy Resource.queryObject], ?_, ?_⟩
  · unfold queryIndex_try
    rw [seq_jni, seq_jni, owned_run sc, seq_jni, seq_has_exception_ret, seq_derefIndexWrapper]
    · simp only []
      rw [seq_native_none sc, owned_run sc, queryIndex_results_run,
        if_neg (by simp [pending_advance_quiet sc hquiet, hpending]),
        if_neg (by simp [pending_advance_quiet sc hquiet, hpending])]
      simp [advance_advance]
    · simpa [live_advance] using hlive
    · simp [pending_advance_quiet sc hquiet, hpending]
  · rw [thrownNew_append, thrownNew_append, thrownNew_resultEvents]
    rfl

/-- The array of the entries of `result` in the order of removal. -/
theorem drainResults_eq {Q : Type} (ops : KNNQueueOps Q) (result : Q) :
    drainResults ops (ops.Size result) 0 result (List.replicate (ops.Size result) none)
      = (List.range (ops.Size result)).map (fun i => some (removedAt ops result i)) := by
  apply List.ext_getElem?
  intro i
  rw [drainResults_get ops _ 0 result _ i (by simp)]
  by_cases hi : i < ops.Size result
  · rw [if_pos (by omega)]
    simp [hi]
  · rw [if_neg (by omega)]
    have h1 : ops.Size result ≤ i := by omega
    rw [List.getElem?_eq_none (by simpa using h1), List.getElem?_eq_none (by simpa using h1)]

/-- With a live handle, nothing pending and a runtime that flags nothing,
`queryIndex` returns the entries in the order of removal and raises nothing. -/
theorem queryIndex_quiet {Q : Type} (sc : Scenario) (ops : KNNQueueOps Q) (result : Q)
    (h : Nat) (k : Int) (s : Frame Unit) (hlive : h ∈ s.live) (hpending : s.pending = false)
    (hquiet : ∀ c, sc.raises c = false) :
    (Java_com_amazon_opendistroforelasticsearch_knn_index_v2011_KNNIndex_queryIndex sc ops
        (Except.ok result) h k s).1
      = Outcome.ret (some ((List.range (ops.Size result)).map
          (fun i => some (removedAt ops result i)))) ∧
    thrownNew (Java_com_amazon_opendistroforelasticsearch_knn_index_v2011_KNNIndex_queryIndex
        sc ops (Except.ok result) h k s).2.trace = thrownNew s.trace := by
  obtain ⟨t, hrun, ht⟩ := queryIndex_try_quiet sc ops result h k s hlive hpending hquiet
  unfold Java_com_amazon_opendistroforelasticsearch_knn_index_v2011_KNNIndex_queryIndex
  rw [tryCatch_run, hrun, drainResults_eq]
  simp [trace_advance, thrownNew_append, ht]

/-- In any scenario, an array that `queryIndex` returns holds the entries in the
order of removal. -/
theorem queryIndex_ret {Q : Type} (sc : Scenario) (ops : KNNQueueOps Q) (result : Q)
    (h : Nat) (k : Int) (s : Frame Unit) (rs : List (Option KNNQueryResult))
    (hret : (Java_com_amazon_opendistroforelasticsearch_knn_index_v2011_KNNIndex_queryIndex sc
        ops (Except.ok result) h k s).1 = Outcome.ret (some rs)) :
    rs = (List.range (ops.Size result)).map (fun i => some (removedAt ops result i)) := by
  unfold Java_com_amazon_opendistroforelasticsearch_knn_index_v2011_KNNIndex_queryIndex at hret
  rw [tryCatch_run] at hret
  have htry : (queryIndex_try sc ops (Except.ok result) h k s).1 = Outcome.ret (some rs) := by
    split at hret
    · next e s2 heq =>
      obtain ⟨_, _, _, hret⟩ := seq_fst_ret hret
      simp [pure_run] at hret
    · exact hret
  obtain ⟨result1, hres, hrs⟩ := queryIndex_try_ret sc ops _ h k s rs htry
  cases hres
  rw [hrs, drainResults_eq]

/-- C10: the array `queryIndex` returns has as many elements as the native
queue holds, and its `i`-th element is the identifier and the distance of the
`i`-th entry removed from the queue by repeatedly reading the top and popping
it. With a live handle, nothing pending and a runtime that flags nothing the
array is returned and nothing is raised, also for a queue with no entries,
which gives the empty array. -/
theorem C10_drain_preserves_removal_order {Q : Type} (sc : Scenario) (ops : KNNQueueOps Q)
    (result : Q) (h : Nat) (k : Int) (s : Frame Unit)
    (hlive : h ∈ s.live) (hpending : s.pending = false) (hquiet : ∀ c, sc.raises c = false) :
    (∃ rs,
      (Java_com_amazon_opendistroforelasticsearch_knn_index_v2011_KNNIndex_queryIndex sc ops
        (Except.ok result) h k s).1 = Outcome.ret (some rs) ∧
      rs.length = ops.Size result ∧
      (∀ i, i < ops.Size result → rs[i]? = some (some (removedAt ops result i))) ∧
      (ops.Size result = 0 → rs = []) ∧
      thrownNew (Java_com_amazon_opendistroforelasticsearch_knn_index_v2011_KNNIndex_queryIndex
        sc ops (Except.ok result) h k s).2.trace = thrownNew s.trace) ∧
    (∀ (sc1 : Scenario) (h1 : Nat) (k1 : Int) (s1 : Frame Unit)
        (rs : List (Option KNNQueryResult)),
      (Java_com_amazon_opendistroforelasticsearch_knn_index_v2011_KNNIndex_queryIndex sc1 ops
        (Except.ok result) h1 k1 s1).1 = Outcome.ret (some rs) →
      rs.length = ops.Size result ∧
      ∀ i, i < ops.Size result → rs[i]? = some (some (removedAt ops result i))) := by
  have hget : ∀ i, i < ops.Size result →
      ((List.range (ops.Size result)).map (fun i => some (removedAt ops result i)))[i]?
        = some (some (removedAt ops result i)) := by
    intro i hi
    simp [hi]
  constructor
  · obtain ⟨h1, h2⟩ := queryIndex_quiet sc ops result h k s hlive hpending hquiet
    refine ⟨_, h1, by simp, hget, ?_, h2⟩
    intro h0
    simp [h0]
  · intro sc1 h1 k1 s1 rs hret
    rw [queryIndex_ret sc1 ops result h1 k1 s1 rs hret]
    exact ⟨by simp, hget⟩

/-- For a queue given by its entries in the order of removal, the entries
removed are the entries of the queue, each once and in order. -/
theorem removedAt_listQueue : ∀ (q : List KNNQueryResult) (i : Nat) (hi : i < q.length),
    removedAt listQueue q i = q[i] := by
  intro q
  induction q with
  | nil => intro i hi; simp at hi
  | cons e es ih =>
    intro i hi
    cases i with
    | zero => rfl
    | succ i =>
      rw [removedAt_succ]
      exact ih i (by simpa using hi)

/-- Witness of C10: a queue that gives up the entry of distance 2 before the
entry of distance 1 is returned in that order. -/
theorem C10_drain_preserves_removal_order_witness :
    ∃ rs,
      (Java_com_amazon_opendistroforelasticsearch_knn_index_v2011_KNNIndex_queryIndex
        Scenario.quiet listQueue (Except.ok [⟨11, 2⟩, ⟨12, 1⟩]) 5 2 (entry [5] ())).1
        = Outcome.ret (some rs) ∧
      rs.length = 2 ∧
      (∀ i, i < 2 → rs[i]? = some (some (removedAt listQueue [⟨11, 2⟩, ⟨12, 1⟩] i))) :=
  match (C10_drain_preserves_removal_order Scenario.quiet listQueue [⟨11, 2⟩, ⟨12, 1⟩] 5 2
      (entry [5] ()) (by decide) rfl (fun _ => rfl)).1 with
  | ⟨rs, h1, h2, h3, _, _⟩ => ⟨rs, h1, h2, h3⟩

/-! ## `queryIndex` with the queue of the spec -/

theorem nearest_mem : ∀ (es : List KNNQueryResult) (e : KNNQueryResult),
    nearest e es ∈ e :: es := by
  intro es
  induction es with
  | nil => intro e; simp [nearest]
  | cons x xs ih =>
    intro e
    simp only [nearest]
    split
    · exact List.mem_cons_of_mem _ (ih x)
    · have := ih e
      simp only [List.mem_cons] at this ⊢
      rcases this with h | h
      · exact Or.inl h
      · exact Or.inr (Or.inr h)

theorem nearest_le : ∀ (es : List KNNQueryResult) (e : KNNQueryResult),
    ∀ x ∈ e :: es, (nearest e es).distance ≤ x.distance := by
  intro es
  induction es with
  | nil =>
    intro e x hx
    simp at hx
    simp [nearest, hx]
  | cons y ys ih =>
    intro e x hx
    simp only [nearest]
    have h0e := ih e e (List.mem_cons_self _ _)
    have h0y := ih y y (List.mem_cons_self _ _)
    simp only [List.mem_cons] at hx
    split
    · next hlt =>
      rcases hx with h | h | h
      · subst h; exact le_trans h0y (le_of_lt hlt)
      · subst h; exact h0y
      · exact ih y x (List.mem_cons_of_mem _ h)
    · next hlt =>
      rcases hx with h | h | h
      · subst h; exact h0e
      · subst h; exact le_trans h0e (not_lt.mp hlt)
      · exact ih e x (List.mem_cons_of_mem _ h)

theorem removedAt_nearestFirst_zero (e : KNNQueryResult) (es : List KNNQueryResult) :
    removedAt nearestFirstQueue (e :: es) 0 = nearest e es := rfl

theorem removedAt_nearestFirst_succ (e : KNNQueryResult) (es : List KNNQueryResult) (i : Nat) :
    removedAt nearestFirstQueue (e :: es) (i + 1)
      = removedAt nearestFirstQueue ((e :: es).erase (nearest e es)) i := rfl

/-- Every entry removed from the queue of the spec is an entry of the queue. -/
theorem removedAt_nearestFirst_mem : ∀ (n : Nat) (q : List KNNQueryResult), q.length = n →
    ∀ j, j < n → removedAt nearestFirstQueue q j ∈ q := by
  intro n
  induction n with
  | zero => intro q _ j hj; omega
  | succ n ih =>
    intro q hq j hj
    cases q with
    | nil => simp at hq
    | cons e es =>
      cases j with
      | zero => exact nearest_mem es e
      | succ j =>
        rw [removedAt_nearestFirst_succ]
        apply List.mem_of_mem_erase
        apply ih _ _ j (by omega)
        rw [List.length_erase_of_mem (nearest_mem es e)]
        simpa using hq

/-- The queue of the spec gives up its entries by ascending distance. -/
theorem removedAt_nearestFirst_le : ∀ (n : Nat) (q : List KNNQueryResult), q.length = n →
    ∀ i j, i ≤ j → j < n →
      (removedAt nearestFirstQueue q i).distance ≤
        (removedAt nearestFirstQueue q j).distance := by
  intro n
  induction n with
  | zero => intro q _ i j _ hj; omega
  | succ n ih =>
    intro q hq i j hij hj
    cases q with
    | nil => simp at hq
    | cons e es =>
      cases i with
      | zero =>
        rw [removedAt_nearestFirst_zero]
        exact nearest_le es e _ (removedAt_nearestFirst_mem (n + 1) (e :: es) hq j hj)
      | succ i =>
        cases j with
        | zero => omega
        | succ j =>
          rw [removedAt_nearestFirst_succ, removedAt_nearestFirst_succ]
          apply ih _ _ i j (by omega) (by omega)
          rw [List.length_erase_of_mem (nearest_mem es e)]
          simpa using hq

theorem sorted_removed_nearestFirst (q : List KNNQueryResult) :
    (((List.range q.length).map (removedAt nearestFirstQueue q)).map
      KNNQueryResult.distance).Sorted (· ≤ ·) := by
  unfold List.Sorted
  rw [List.pairwise_map, List.pairwise_map]
  refine List.Pairwise.imp_of_mem ?_ (List.pairwise_lt_range q.length)
  intro a b _ hb hab
  exact removedAt_nearestFirst_le q.length q rfl a b (le_of_lt hab) (List.mem_range.mp hb)

/-- C3: with the native result queue as the spec describes it (the top is the
current nearest entry) holding at most `k` entries, `queryIndex` for a live
handle and `k > 0` returns at most `k` results whose distances are
non-decreasing from first to last; and whatever the scenario, an array that is
returned has these two properties. -/
theorem C3_k_bound_and_order (sc : Scenario) (q : List KNNQueryResult) (h : Nat) (k : Int)
    (s : Frame Unit) (hlive : h ∈ s.live) (hpending : s.pending = false)
    (hquiet : ∀ c, sc.raises c = false) (hk : 0 < k) (hq : q.length ≤ k.toNat) :
    (∃ es : List KNNQueryResult,
      (Java_com_amazon_opendistroforelasticsearch_knn_index_v2011_KNNIndex_queryIndex sc
        nearestFirstQueue (Except.ok q) h k s).1 = Outcome.ret (some (es.map some)) ∧
      (es.length : Int) ≤ k ∧
      (es.map KNNQueryResult.distance).Sorted (· ≤ ·)) ∧
    (∀ (sc1 : Scenario) (h1 : Nat) (s1 : Frame Unit) (rs : List (Option KNNQueryResult)),
      (Java_com_amazon_opendistroforelasticsearch_knn_index_v2011_KNNIndex_queryIndex sc1
        nearestFirstQueue (Except.ok q) h1 k s1).1 = Outcome.ret (some rs) →
      ∃ es : List KNNQueryResult, rs = es.map some ∧ (es.length : Int) ≤ k ∧
        (es.map KNNQueryResult.distance).Sorted (· ≤ ·)) := by
  have hmap : (List.range (nearestFirstQueue.Size q)).map
        (fun i => some (removedAt nearestFirstQueue q i))
      = ((List.range q.length).map (removedAt nearestFirstQueue q)).map some := by
    simp [nearestFirstQueue]
  have hlen : (((List.range q.length).map (removedAt nearestFirstQueue q)).length : Int) ≤ k := by
    simp only [List.length_map, List.length_range]
    omega
  constructor
  · refine ⟨(List.range q.length).map (removedAt nearestFirstQueue q), ?_, hlen,
      sorted_removed_nearestFirst q⟩
    rw [(queryIndex_quiet sc nearestFirstQueue q h k s hlive hpending hquiet).1, hmap]
  · intro sc1 h1 s1 rs hret
    refine ⟨(List.range q.length).map (removedAt nearestFirstQueue q), ?_, hlen,
      sorted_removed_nearestFirst q⟩
    rw [queryIndex_ret sc1 nearestFirstQueue q h1 k s1 rs hret, hmap]

/-- Witness of C3: three entries held in no particular order, `k = 3`; the
result starts with the entry of distance 1. -/
theorem C3_k_bound_and_order_witness :
    ∃ es : List KNNQueryResult,
      (Java_com_amazon_opendistroforelasticsearch_knn_index_v2011_KNNIndex_queryIndex
        Scenario.quiet nearestFirstQueue (Except.ok [⟨11, 2⟩, ⟨12, 1⟩, ⟨13, 3⟩]) 5 3
        (entry [5] ())).1 = Outcome.ret (some (es.map some)) ∧
      (es.length : Int) ≤ 3 ∧
      (es.map KNNQueryResult.distance).Sorted (· ≤ ·) :=
  (C3_k_bound_and_order Scenario.quiet [⟨11, 2⟩, ⟨12, 1⟩, ⟨13, 3⟩] 5 3 (entry [5] ())
    (by decide) rfl (fun _ => rfl) (by decide) (by decide)).1


/-! ## Abort on a pending runtime failure -/

theorem triple_seq {L α β : Type} {P : Frame L → Prop} {p : Prog L α} {f : α → Prog L β}
    {Q : α → Frame L → Prop} {R : β → Frame L → Prop} {E : Frame L → Prop}
    (hp : Triple P p Q E) (hf : ∀ a, Triple (Q a) (f a) R E) : Triple P (p >>= f) R E := by
  intro s hs
  have h1 := hp s hs
  rw [seq_run]
  rcases hps : p s with ⟨o, s1⟩
  rw [hps] at h1
  cases o with
  | ret a => exact hf a s1 h1
  | thrown e => exact h1
  | undefined => trivial

theorem triple_weaken {L α : Type} {P P1 : Frame L → Prop} {p : Prog L α}
    {Q Q1 : α → Frame L → Prop} {E E1 : Frame L → Prop}
    (hp : Triple P p Q E) (hP : ∀ s, P1 s → P s) (hQ : ∀ a s, Q a s → Q1 a s)
    (hE : ∀ s, E s → E1 s) : Triple P1 p Q1 E1 := by
  intro s hs
  have h1 := hp s (hP s hs)
  rcases hps : p s with ⟨o, s1⟩
  rw [hps] at h1
  cases o with
  | ret a => exact hQ a s1 h1
  | thrown e => exact hE s1 h1
  | undefined => trivial

theorem triple_pure {L α : Type} (P : Frame L → Prop) (E : Frame L → Prop) (a : α) :
    Triple P (pure a : Prog L α) (fun _ => P) E := by
  intro s hs
  exact hs

theorem acquired_append (t u : List Event) : acquired (t ++ u) = acquired t ++ acquired u := by
  simp [acquired, List.filterMap_append]

theorem released_append (t u : List Event) : released (t ++ u) = released t ++ released u := by
  simp [released, List.filterMap_append]

theorem sameBuild_advance_jni (sc : Scenario) (c : JniCall) (s : Frame SaveLocals)
    (hc : ∀ cls msg, c ≠ JniCall.ThrowNew cls msg) :
    SameBuild s (advance sc [Event.jni c] s) := by
  refine ⟨?_, ?_, ?_, rfl, rfl, rfl⟩
  · rw [trace_advance, acquired_append]; simp [acquired]
  · rw [trace_advance, released_append]; simp [released]
  · rw [trace_advance, thrownNew_append]
    cases c <;> simp [thrownNew] at hc ⊢

theorem sameBuild_advance_native (sc : Scenario) (c : NativeCall) (s : Frame SaveLocals) :
    SameBuild s (advance sc [Event.native c] s) := by
  refine ⟨?_, ?_, ?_, rfl, rfl, rfl⟩
  · rw [trace_advance, acquired_append]; simp [acquired]
  · rw [trace_advance, released_append]; simp [released]
  · rw [trace_advance, thrownNew_append]; simp [thrownNew]

theorem buildStable_BuildInv : BuildStable BuildInv := by
  intro s s1 h hs
  obtain ⟨h1, h2, h3, h4, h5, h6⟩ := h
  obtain ⟨a1, a2, a3⟩ := hs
  refine ⟨?_, by rw [h2, a2], by rw [h3, a3]⟩
  rw [h1, a1]
  simp [SaveLocals.owned, h4, h5, h6]

theorem triple_jni (sc : Scenario) (c : JniCall) (P : Frame SaveLocals → Prop)
    (E : Frame SaveLocals → Prop) (hP : BuildStable P)
    (hc : ∀ cls msg, c ≠ JniCall.ThrowNew cls msg) :
    Triple P (jni sc c) (fun _ => P) E := by
  intro s hs
  rw [jni_run]
  exact hP _ _ (sameBuild_advance_jni sc c s hc) hs

theorem triple_native (sc : Scenario) (c : NativeCall) (r : Option CppException)
    (P : Frame SaveLocals → Prop) (hP : BuildStable P) :
    Triple P (native c r) (fun _ => P) P := by
  intro s hs
  cases r with
  | none =>
    rw [native_run_none sc]
    exact hP _ _ (sameBuild_advance_native sc c s) hs
  | some e =>
    rw [native_run_some sc]
    exact hP _ _ (sameBuild_advance_native sc c s) hs

theorem triple_of_state_eq {L α : Type} (P : Frame L → Prop) (p : Prog L α)
    (h : ∀ s, (p s).2 = s) : Triple P p (fun _ => P) P := by
  intro s hs
  have h1 := h s
  rcases hps : p s with ⟨o, s1⟩
  rw [hps] at h1
  simp only at h1
  subst h1
  cases o with
  | ret a => exact hs
  | thrown e => exact hs
  | undefined => trivial

theorem triple_has_exception (P : Frame SaveLocals → Prop) :
    Triple P has_exception_in_stack (fun _ => P) P := by
  apply triple_of_state_eq
  intro s
  rw [has_exception_run]
  split <;> rfl

/-- Building a `std::string` from a string of the runtime acquires and releases
nothing, whether it returns or throws. -/
theorem triple_string (sc : Scenario) (x : JString) (P : Frame SaveLocals → Prop)
    (E : Frame SaveLocals → Prop) (hP : BuildStable P) (hPE : ∀ s, P s → E s) :
    Triple P (stringOfUTFChars sc x) (fun _ => P) E := by
  intro s hs
  have h1 := hP _ _ (sameBuild_advance_jni sc (JniCall.GetStringUTFChars x) s
    (by intro _ _ h; cases h)) hs
  rw [stringOfUTFChars_run]
  by_cases hc : sc.raises (JniCall.GetStringUTFChars x) = true
  · simp only [hc, if_true]
    exact hPE _ h1
  · simp only [hc]
    exact h1

theorem triple_readParams (sc : Scenario) (P : Frame SaveLocals → Prop)
    (E : Frame SaveLocals → Prop) (hP : BuildStable P) (hPE : ∀ s, P s → E s) :
    ∀ n i, Triple P (readParams sc n i) (fun _ => P) E := by
  intro n
  induction n with
  | zero => intro i; exact triple_pure P E ()
  | succ n ih =>
    intro i
    unfold readParams
    refine triple_seq (triple_jni sc _ P E hP (by intro _ _ h; cases h)) fun _ => ?_
    refine triple_seq (triple_string sc _ P E hP hPE) fun _ => ?_
    refine triple_seq (triple_jni sc _ P E hP (by intro _ _ h; cases h)) fun _ => ?_
    exact ih (i + 1)

theorem triple_memcpy (P : Frame SaveLocals → Prop)
    (buffer : List Nat) (dst : Nat) (src : List Nat) (n : Nat) :
    Triple P (memcpy buffer dst src n) (fun _ => P) P := by
  apply triple_of_state_eq
  intro s
  unfold memcpy
  split <;> rfl

theorem buildStable_BuildStart : BuildStable BuildStart := by
  intro s s1 h hs
  refine ⟨buildStable_BuildInv s s1 h hs.1, ?_, ?_, ?_⟩
  · rw [h.2.2.2.1]; exact hs.2.1
  · rw [h.2.2.2.2.1]; exact hs.2.2.1
  · rw [h.2.2.2.2.2]; exact hs.2.2.2

theorem buildStable_BuildPacking : BuildStable BuildPacking := by
  intro s s1 h hs
  refine ⟨buildStable_BuildInv s s1 h hs.1, ?_⟩
  rw [h.2.2.2.2.2]; exact hs.2

theorem stable_has_exception (P E : Frame SaveLocals → Prop) (hPE : ∀ s, P s → E s) :
    Triple P has_exception_in_stack (fun _ => P) E :=
  triple_weaken (triple_has_exception P) (fun _ h => h) (fun _ _ h => h) hPE

theorem stable_native (sc : Scenario) (c : NativeCall) (r : Option CppException)
    (P E : Frame SaveLocals → Prop) (hP : BuildStable P) (hPE : ∀ s, P s → E s) :
    Triple P (native c r) (fun _ => P) E :=
  triple_weaken (triple_native sc c r P hP) (fun _ h => h) (fun _ _ h => h) hPE

theorem stable_memcpy (P E : Frame SaveLocals → Prop) (hPE : ∀ s, P s → E s)
    (buffer : List Nat) (dst : Nat) (src : List Nat) (n : Nat) :
    Triple P (memcpy buffer dst src n) (fun _ => P) E :=
  triple_weaken (triple_memcpy P buffer dst src n) (fun _ h => h) (fun _ _ h => h) hPE

theorem triple_assignSpace (sc : Scenario) (spaceType : String) :
    Triple BuildStart (assignSpace sc spaceType) (fun _ => BuildPacking) BuildInv := by
  intro s hs
  obtain ⟨⟨h1, h2, h3⟩, h4, h5, h6⟩ := hs
  unfold assignSpace
  cases sc.CreateSpace with
  | some e =>
    refine ⟨?_, ?_, ?_⟩
    · simpa [acquired_append, acquired] using h1
    · simpa [released_append, released] using h2
    · simpa [thrownNew_append, thrownNew] using h3
  | none =>
    refine ⟨⟨?_, ?_, ?_⟩, h6⟩
    · show acquired (s.trace ++ _) = _
      rw [acquired_append, h1]
      simp [SaveLocals.owned, h4, h5, h6, acquired, Resource.isBuildResource]
    · simpa [released_append, released] using h2
    · simpa [thrownNew_append, thrownNew] using h3

theorem triple_assignObjectIds (sc : Scenario) :
    Triple BuildPacking (assignObjectIds sc) (fun _ => BuildPacking) BuildInv := by
  intro s hs
  refine buildStable_BuildPacking s _ ⟨?_, ?_, ?_, rfl, rfl, rfl⟩ hs
  · simp [acquired_append, acquired]
  · simp [released_append, released]
  · simp [thrownNew_append, thrownNew]

theorem triple_readDimension (sc : Scenario) (vectors : List (List Nat)) :
    Triple BuildPacking (readDimension sc vectors) (fun _ => BuildPacking) BuildInv := by
  unfold readDimension
  refine triple_seq (triple_jni sc _ _ _ buildStable_BuildPacking
    (by intro _ _ h; cases h)) fun _ => ?_
  cases vectors with
  | nil => exact triple_pure _ _ _
  | cons first rest =>
    refine triple_seq (triple_jni sc _ _ _ buildStable_BuildPacking
      (by intro _ _ h; cases h)) fun _ => ?_
    refine triple_seq (triple_jni sc _ _ _ buildStable_BuildPacking
      (by intro _ _ h; cases h)) fun _ => ?_
    intro s hs
    by_cases hp : s.pending = true
    · simp only [hp, if_true]
      exact hs.1
    · simp only [hp]
      exact hs

theorem triple_newObjectBuffer (sc : Scenario) (size : Nat) :
    Triple BuildPacking (newObjectBuffer sc size) (fun _ => BuildPacking) BuildInv := by
  intro s hs
  unfold newObjectBuffer
  cases sc.newObjectBuffer with
  | some e => exact hs.1
  | none =>
    refine buildStable_BuildPacking s _ ⟨?_, ?_, ?_, rfl, rfl, rfl⟩ hs
    · simp [acquired_append, acquired, Resource.isBuildResource]
    · simp [released_append, released]
    · simp [thrownNew_append, thrownNew]

theorem triple_pushObject (sc : Scenario) (i ptr : Nat)
    (hpush : ∀ e, sc.newObject i ≠ some (ObjectFailure.atPushBack e)) :
    Triple BuildPacking (pushObject sc i ptr) (fun _ => BuildPacking) BuildInv := by
  intro s hs
  obtain ⟨⟨h1, h2, h3⟩, h4⟩ := hs
  unfold pushObject
  cases hn : sc.newObject i with
  | some f =>
    cases f with
    | atNew e => exact ⟨h1, h2, h3⟩
    | atPushBack e => exact absurd hn (hpush e)
  | none =>
    refine ⟨⟨?_, ?_, ?_⟩, h4⟩
    · show acquired (s.trace ++ _) = _
      rw [acquired_append, h1]
      simp [SaveLocals.owned, h4, acquired, Resource.isBuildResource]
    · simpa [released_append, released] using h2
    · simpa [thrownNew_append, thrownNew] using h3

theorem triple_packLoop (S : NativeSizes) (sc : Scenario) (ids : List Int)
    (vectors : List (List Nat)) (vectorSizeInBytes : Nat)
    (hpush : ∀ i e, sc.newObject i ≠ some (ObjectFailure.atPushBack e)) :
    ∀ n i ptr buffer,
      Triple BuildPacking (packLoop S sc ids vectors vectorSizeInBytes n i ptr buffer)
        (fun _ => BuildPacking) BuildInv := by
  intro n
  induction n with
  | zero => intro i ptr buffer; exact triple_pure _ _ _
  | succ n ih =>
    intro i ptr buffer
    unfold packLoop
    refine triple_seq (triple_pushObject sc i ptr (hpush i)) fun _ => ?_
    refine triple_seq (stable_memcpy _ _ (fun _ h => h.1) _ _ _ _) fun _ => ?_
    refine triple_seq (stable_memcpy _ _ (fun _ h => h.1) _ _ _ _) fun _ => ?_
    refine triple_seq (stable_memcpy _ _ (fun _ h => h.1) _ _ _ _) fun _ => ?_
    refine triple_seq (triple_jni sc _ _ _ buildStable_BuildPacking
      (by intro _ _ h; cases h)) fun _ => ?_
    refine triple_seq (triple_jni sc _ _ _ buildStable_BuildPacking
      (by intro _ _ h; cases h)) fun _ => ?_
    refine triple_seq (stable_memcpy _ _ (fun _ h => h.1) _ _ _ _) fun _ => ?_
    refine triple_seq (triple_jni sc _ _ _ buildStable_BuildPacking
      (by intro _ _ h; cases h)) fun _ => ?_
    exact ih _ _ _

theorem triple_packVectors (S : NativeSizes) (sc : Scenario) (ids : List Int)
    (vectors : List (List Nat))
    (hpush : ∀ i e, sc.newObject i ≠ some (ObjectFailure.atPushBack e)) :
    Triple BuildPacking (packVectors S sc ids vectors) (fun _ => BuildPacking) BuildInv := by
  unfold packVectors
  refine triple_seq (triple_readDimension sc vectors) fun _ => ?_
  refine triple_seq (triple_newObjectBuffer sc _) fun _ => ?_
  exact triple_packLoop S sc ids vectors _ hpush _ _ _ _

theorem triple_assignIndex (sc : Scenario) (spaceType : String) (buffer : List Nat) :
    Triple BuildPacking (assignIndex sc spaceType buffer) (fun _ => BuildInv) BuildInv := by
  intro s hs
  obtain ⟨⟨h1, h2, h3⟩, h4⟩ := hs
  unfold assignIndex
  cases sc.CreateMethod with
  | some e =>
    refine ⟨?_, ?_, ?_⟩
    · simpa [acquired_append, acquired] using h1
    · simpa [released_append, released] using h2
    · simpa [thrownNew_append, thrownNew] using h3
  | none =>
    refine ⟨?_, ?_, ?_⟩
    · show acquired (s.trace ++ _) = _
      rw [acquired_append, h1]
      simp [SaveLocals.owned, h4, acquired, Resource.isBuildResource]
    · simpa [released_append, released] using h2
    · simpa [thrownNew_append, thrownNew] using h3

theorem released_map_destroy_object (ps : List Nat) :
    released (ps.map (fun p => Event.destroy (Resource.object p))) = ps.map Resource.object := by
  induction ps with
  | nil => rfl
  | cons p ps ih =>
    show released ([Event.destroy (Resource.object p)] ++ _) = _
    rw [released_append, ih]
    rfl

theorem acquired_map_destroy_object (ps : List Nat) :
    acquired (ps.map (fun p => Event.destroy (Resource.object p))) = [] := by
  induction ps with
  | nil => rfl
  | cons p ps ih =>
    show acquired ([Event.destroy (Resource.object p)] ++ _) = _
    rw [acquired_append, ih]
    rfl

theorem thrownNew_map_destroy_object (ps : List Nat) :
    thrownNew (ps.map (fun p => Event.destroy (Resource.object p))) = [] := by
  induction ps with
  | nil => rfl
  | cons p ps ih =>
    show thrownNew ([Event.destroy (Resource.object p)] ++ _) = _
    rw [thrownNew_append, ih]
    rfl

theorem releaseOrder_owned (l : SaveLocals) :
    releaseOrder l.owned = released (cleanupEvents l) := by
  have h1 : ∀ ps : List Nat,
      (ps.map Resource.object).filter
        (fun r => match r with | Resource.object _ => true | _ => false)
        = ps.map Resource.object := by
    intro ps
    induction ps with
    | nil => rfl
    | cons p ps ih => simp [List.filter_cons, ih]
  have h2 : ∀ ps : List Nat,
      (ps.map Resource.object).filter (fun r => r == Resource.index) = [] := by
    intro ps
    induction ps with
    | nil => rfl
    | cons p ps ih => simp [List.filter_cons, ih]
  have h3 : ∀ ps : List Nat,
      (ps.map Resource.object).filter (fun r => r == Resource.space) = [] := by
    intro ps
    induction ps with
    | nil => rfl
    | cons p ps ih => simp [List.filter_cons, ih]
  unfold releaseOrder SaveLocals.owned cleanupEvents
  rw [released_append, released_append, released_map_destroy_object]
  simp only [List.filter_append, h1, h2, h3]
  cases l.space <;> cases l.index <;> simp [released, Resource.isBuildResource]

theorem perm_cleanup_owned (l : SaveLocals) :
    (released (cleanupEvents l)).Perm l.owned := by
  unfold SaveLocals.owned cleanupEvents
  rw [released_append, released_append, released_map_destroy_object]
  cases l.space <;> cases l.index <;>
    simp [released, Resource.isBuildResource, List.perm_append_comm]
  have h := @List.perm_append_comm _ (l.dataset.map Resource.object ++ [Resource.index])
    [Resource.space]
  simpa using h

theorem cleaned_of_inv (s : Frame SaveLocals) (hs : BuildInv s) :
    BuildCleaned { s with trace := s.trace ++ cleanupEvents s.locals } := by
  obtain ⟨h1, h2, h3⟩ := hs
  have ha : acquired (cleanupEvents s.locals) = [] := by
    unfold cleanupEvents
    rw [acquired_append, acquired_append, acquired_map_destroy_object]
    cases s.locals.space <;> cases s.locals.index <;> rfl
  have ht : thrownNew (cleanupEvents s.locals) = [] := by
    unfold cleanupEvents
    rw [thrownNew_append, thrownNew_append, thrownNew_map_destroy_object]
    cases s.locals.space <;> cases s.locals.index <;> rfl
  refine ⟨?_, ?_, ?_⟩
  · show released (s.trace ++ _) = releaseOrder (acquired (s.trace ++ _))
    rw [released_append, acquired_append, h2, ha, List.append_nil, h1, releaseOrder_owned]
    rfl
  · show (released (s.trace ++ _)).Perm (acquired (s.trace ++ _))
    rw [released_append, acquired_append, h2, ha, List.append_nil, h1]
    exact perm_cleanup_owned s.locals
  · show thrownNew (s.trace ++ _) = []
    rw [thrownNew_append, h3, ht]
    rfl

theorem cleanup_run (s : Frame SaveLocals) :
    (deleteDataset >>= fun _ => deleteIndex >>= fun _ => deleteSpace) s
      = (Outcome.ret (), { s with trace := s.trace ++ cleanupEvents s.locals }) := by
  simp only [seq_run, deleteDataset, deleteIndex, deleteSpace, cleanupEvents]
  cases hi : s.locals.index <;> cases hsp : s.locals.space <;> simp [hi, hsp]

theorem cleanup_then_run {β : Type} (f : Unit → Prog SaveLocals β) (s : Frame SaveLocals) :
    (deleteDataset >>= fun _ => deleteIndex >>= fun _ => deleteSpace >>= f) s
      = f () { s with trace := s.trace ++ cleanupEvents s.locals } := by
  simp only [seq_run, deleteDataset, deleteIndex, deleteSpace, cleanupEvents]
  cases hi : s.locals.index <;> cases hsp : s.locals.space <;> simp [hi, hsp]

theorem sinceRaise_of_none : ∀ t : List Event, thrownNew t = [] → sinceRaise t = [] := by
  intro t
  induction t with
  | nil => intro _; rfl
  | cons e t ih =>
    intro h
    have hsplit : thrownNew (e :: t) = thrownNew [e] ++ thrownNew t := thrownNew_append [e] t
    rw [hsplit] at h
    have h1 : thrownNew [e] = [] := (List.append_eq_nil.mp h).1
    have h2 : thrownNew t = [] := (List.append_eq_nil.mp h).2
    cases e with
    | jni c =>
      cases c <;> first | (simpa [sinceRaise] using ih h2) | (simp [thrownNew] at h1)
    | native c => simpa [sinceRaise] using ih h2
    | create r => simpa [sinceRaise] using ih h2
    | destroy r => simpa [sinceRaise] using ih h2

theorem sinceRaise_append_of_none : ∀ t u : List Event, thrownNew t = [] →
    sinceRaise (t ++ u) = sinceRaise u := by
  intro t
  induction t with
  | nil => intro u _; rfl
  | cons e t ih =>
    intro u h
    have hsplit : thrownNew (e :: t) = thrownNew [e] ++ thrownNew t := thrownNew_append [e] t
    rw [hsplit] at h
    have h1 : thrownNew [e] = [] := (List.append_eq_nil.mp h).1
    have h2 : thrownNew t = [] := (List.append_eq_nil.mp h).2
    cases e with
    | jni c =>
      cases c <;> first | (simpa [sinceRaise] using ih u h2) | (simp [thrownNew] at h1)
    | native c => simpa [sinceRaise] using ih u h2
    | create r => simpa [sinceRaise] using ih u h2
    | destroy r => simpa [sinceRaise] using ih u h2

theorem buildStable_BuildCleaned : BuildStable BuildCleaned := by
  intro s s1 h hs
  obtain ⟨h1, h2, h3, _, _, _⟩ := h
  obtain ⟨a1, a2, a3⟩ := hs
  exact ⟨by rw [h2, h1, a1], by rw [h2, h1]; exact a2, by rw [h3, a3]⟩

theorem released_of_cleaned (s : Frame SaveLocals) (hs : BuildCleaned s) : BuildReleased s :=
  ⟨hs.1, hs.2.1, by rw [sinceRaise_of_none _ hs.2.2]; rfl⟩

/-- The error translator after the cleanup releases nothing. -/
theorem released_of_translate (sc : Scenario) (e : CppException) (s : Frame SaveLocals)
    (hs : BuildCleaned s) :
    BuildReleased (catch_cpp_exception_and_throw_java sc e s).2 := by
  obtain ⟨h1, h2, h3⟩ := hs
  have key : ∀ type message : String,
      BuildReleased (JavaException sc type message s).2 := by
    intro type message
    rw [JavaException_run]
    by_cases hc : sc.raises (JniCall.FindClass type) = true
    · simp only [hc, if_true]
      refine ⟨?_, ?_, ?_⟩
      · show released (s.trace ++ _) = releaseOrder (acquired (s.trace ++ _))
        rw [released_append, acquired_append, h1]
        simp [released, acquired]
      · show (released (s.trace ++ _)).Perm (acquired (s.trace ++ _))
        rw [released_append, acquired_append]
        simpa [released, acquired] using h2
      · show released (sinceRaise (s.trace ++ _)) = []
        rw [sinceRaise_append_of_none _ _ h3]
        rfl
    · simp only [hc]
      refine ⟨?_, ?_, ?_⟩
      · show released (s.trace ++ _) = releaseOrder (acquired (s.trace ++ _))
        rw [released_append, acquired_append, h1]
        simp [released, acquired]
      · show (released (s.trace ++ _)).Perm (acquired (s.trace ++ _))
        rw [released_append, acquired_append]
        simpa [released, acquired] using h2
      · show released (sinceRaise (s.trace ++ _)) = []
        rw [sinceRaise_append_of_none _ _ h3]
        rfl
  cases e <;> exact key _ _

theorem triple_saveIndex_try (S : NativeSizes) (sc : Scenario) (ids : List Int)
    (vectors : List (List Nat)) (indexPath : String) (algoParams : List String)
    (spaceType : String)
    (hpush : ∀ i e, sc.newObject i ≠ some (ObjectFailure.atPushBack e)) :
    Triple BuildStart (saveIndex_try S sc ids vectors indexPath algoParams spaceType)
      (fun _ => BuildCleaned) BuildInv := by
  unfold saveIndex_try
  refine triple_seq (triple_string sc _ _ _ buildStable_BuildStart (fun _ h => h.1)) fun _ => ?_
  refine triple_seq (triple_jni sc _ _ _ buildStable_BuildStart
    (by intro _ _ h; cases h)) fun _ => ?_
  refine triple_seq (stable_has_exception _ _ (fun _ h => h.1)) fun _ => ?_
  refine triple_seq (triple_assignSpace sc spaceType) fun _ => ?_
  refine triple_seq (triple_assignObjectIds sc) fun _ => ?_
  refine triple_seq (triple_packVectors S sc ids vectors hpush) fun objectBuffer => ?_
  refine triple_seq (triple_jni sc _ _ _ buildStable_BuildPacking
    (by intro _ _ h; cases h)) fun _ => ?_
  refine triple_seq (triple_assignIndex sc spaceType objectBuffer) fun _ => ?_
  refine triple_seq (triple_jni sc _ _ _ buildStable_BuildInv
    (by intro _ _ h; cases h)) fun _ => ?_
  refine triple_seq (triple_readParams sc _ _ buildStable_BuildInv (fun _ h => h) _ _)
    fun _ => ?_
  refine triple_seq (stable_native sc _ _ _ _ buildStable_BuildInv (fun _ h => h)) fun _ => ?_
  refine triple_seq (stable_has_exception _ _ (fun _ h => h)) fun _ => ?_
  refine triple_seq (triple_string sc _ _ _ buildStable_BuildInv (fun _ h => h)) fun _ => ?_
  refine triple_seq (stable_native sc _ _ _ _ buildStable_BuildInv (fun _ h => h)) fun _ => ?_
  refine triple_seq (triple_jni sc _ _ _ buildStable_BuildInv
    (by intro _ _ h; cases h)) fun _ => ?_
  refine triple_seq (stable_has_exception _ _ (fun _ h => h)) fun _ => ?_
  intro s hs
  rw [cleanup_run]
  exact cleaned_of_inv s hs

theorem sameBuild_leave (s : Frame SaveLocals) :
    SameBuild s
      { s with
        trace := s.trace ++ [Event.destroy Resource.objectBuffer],
        locals := { s.locals with objectBuffer := false } } := by
  refine ⟨?_, ?_, ?_, rfl, rfl, rfl⟩
  · show acquired (s.trace ++ _) = _
    rw [acquired_append]; simp [acquired]
  · show released (s.trace ++ _) = _
    rw [released_append]; simp [released, Resource.isBuildResource]
  · show thrownNew (s.trace ++ _) = _
    rw [thrownNew_append]; simp [thrownNew]

theorem triple_leaveTry {α : Type} (body : Prog SaveLocals α) (P : Frame SaveLocals → Prop)
    (Q : α → Frame SaveLocals → Prop) (E : Frame SaveLocals → Prop)
    (hQ : ∀ a, BuildStable (Q a)) (hE : BuildStable E) (h : Triple P body Q E) :
    Triple P (leaveTry body) Q E := by
  intro s hs
  have h1 := h s hs
  unfold leaveTry
  rcases hb : body s with ⟨o, s1⟩
  rw [hb] at h1
  cases o with
  | undefined => trivial
  | ret a =>
    by_cases hbuf : s1.locals.objectBuffer = true
    · simp only [hbuf, if_true]
      exact hQ a _ _ (sameBuild_leave s1) h1
    · simp only [hbuf]
      exact h1
  | thrown e =>
    by_cases hbuf : s1.locals.objectBuffer = true
    · simp only [hbuf, if_true]
      exact hE _ _ (sameBuild_leave s1) h1
    · simp only [hbuf]
      exact h1

theorem saveIndex_catch_released (sc : Scenario) (e : CppException) (s : Frame SaveLocals)
    (hs : BuildInv s) :
    (saveIndex_catch sc e s).1 = Outcome.ret () ∧ BuildReleased (saveIndex_catch sc e s).2 := by
  unfold saveIndex_catch
  rw [seq_ret (show getLocals s = (Outcome.ret s.locals, s) from rfl)]
  by_cases hid : s.locals.object_ids = true
  · simp only [hid, if_true]
    rw [seq_jni, cleanup_then_run]
    have hinv : BuildInv (advance sc [Event.jni (JniCall.ReleaseIntArrayElements JArray.ids)] s) :=
      buildStable_BuildInv _ _ (sameBuild_advance_jni sc _ s (by intro _ _ h; cases h)) hs
    exact ⟨catch_cpp_exception_and_throw_java_fst sc e _,
      released_of_translate sc e _ (cleaned_of_inv _ hinv)⟩
  · have hid1 : s.locals.object_ids = false := by simpa using hid
    simp only [hid1, Bool.false_eq_true, if_false]
    rw [seq_ret (pure_run () s), cleanup_then_run]
    exact ⟨catch_cpp_exception_and_throw_java_fst sc e _,
      released_of_translate sc e _ (cleaned_of_inv _ hs)⟩

/-- Whatever happens, short of undefined behaviour and of a `push_back` that
throws on line 130, `saveIndex` returns with every build resource it acquired
released. -/
theorem saveIndex_released (S : NativeSizes) (sc : Scenario) (ids : List Int)
    (vectors : List (List Nat)) (indexPath : String) (algoParams : List String)
    (spaceType : String) (s : Frame SaveLocals) (hs : BuildStart s)
    (hpush : ∀ i e, sc.newObject i ≠ some (ObjectFailure.atPushBack e))
    (hdef : (Java_com_amazon_opendistroforelasticsearch_knn_index_v2011_KNNIndex_saveIndex S sc
      ids vectors indexPath algoParams spaceType s).1 ≠ Outcome.undefined) :
    (Java_com_amazon_opendistroforelasticsearch_knn_index_v2011_KNNIndex_saveIndex S sc
      ids vectors indexPath algoParams spaceType s).1 = Outcome.ret () ∧
    BuildReleased (Java_com_amazon_opendistroforelasticsearch_knn_index_v2011_KNNIndex_saveIndex
      S sc ids vectors indexPath algoParams spaceType s).2 := by
  have h := triple_leaveTry _ _ _ _ (fun _ => buildStable_BuildCleaned) buildStable_BuildInv
    (triple_saveIndex_try S sc ids vectors indexPath algoParams spaceType hpush) s hs
  unfold Java_com_amazon_opendistroforelasticsearch_knn_index_v2011_KNNIndex_saveIndex at hdef ⊢
  rw [tryCatch_run] at hdef ⊢
  rcases hb : leaveTry (saveIndex_try S sc ids vectors indexPath algoParams spaceType) s
    with ⟨o, s1⟩
  rw [hb] at h hdef
  cases o with
  | undefined => exact absurd rfl hdef
  | ret a => exact ⟨rfl, released_of_cleaned s1 h⟩
  | thrown e => exact saveIndex_catch_released sc e s1 h

theorem buildStart_entry (live : List Nat) : BuildStart (entry live SaveLocals.init) :=
  ⟨⟨rfl, rfl, rfl⟩, rfl, rfl, rfl⟩


/-! ## Claims on `saveIndex`, `init` and `queryIndex` under failure -/

/-- The slip on line 130: when `push_back` throws for the first record, the
record object created just before is in no container; the handler releases the
space, and the object is never released. -/
theorem saveIndex_push_back_leaks_object :
    acquired (Java_com_amazon_opendistroforelasticsearch_knn_index_v2011_KNNIndex_saveIndex
        NativeSizes.nmslib
        { Scenario.quiet with
          newObject := fun _ =>
            some (ObjectFailure.atPushBack (CppException.bad_alloc "std::bad_alloc")) }
        [7] [[1, 2]] "index.hnsw" [] "l2" (entry [] SaveLocals.init)).2.trace
      = [Resource.space, Resource.object 0] ∧
    released (Java_com_amazon_opendistroforelasticsearch_knn_index_v2011_KNNIndex_saveIndex
        NativeSizes.nmslib
        { Scenario.quiet with
          newObject := fun _ =>
            some (ObjectFailure.atPushBack (CppException.bad_alloc "std::bad_alloc")) }
        [7] [[1, 2]] "index.hnsw" [] "l2" (entry [] SaveLocals.init)).2.trace
      = [Resource.space] ∧
    thrownNew (Java_com_amazon_opendistroforelasticsearch_knn_index_v2011_KNNIndex_saveIndex
        NativeSizes.nmslib
        { Scenario.quiet with
          newObject := fun _ =>
            some (ObjectFailure.atPushBack (CppException.bad_alloc "std::bad_alloc")) }
        [7] [[1, 2]] "index.hnsw" [] "l2" (entry [] SaveLocals.init)).2.trace
      = [("java/io/IOException", "std::bad_alloc")] := by
  refine ⟨?_, ?_, ?_⟩ <;> decide!

/-- C5 fails on the code as stated: with two records and `CreateIndex` throwing,
the resources are acquired in the order space, record at 0, record at 24,
index, and the handler releases them in the order record at 0, record at 24,
index, space before the translated failure is raised; this is not the reverse
of the acquisition. -/
theorem C5_release_is_not_reverse_order :
    thrownNew (Java_com_amazon_opendistroforelasticsearch_knn_index_v2011_KNNIndex_saveIndex
        NativeSizes.nmslib
        { Scenario.quiet with CreateIndex := some (CppException.runtime_error "Bad parameter") }
        [7, 9] [[1, 2], [3, 4]] "index.hnsw" [] "l2" (entry [] SaveLocals.init)).2.trace
      = [("java/lang/Exception", "Bad parameter")] ∧
    acquired (Java_com_amazon_opendistroforelasticsearch_knn_index_v2011_KNNIndex_saveIndex
        NativeSizes.nmslib
        { Scenario.quiet with CreateIndex := some (CppException.runtime_error "Bad parameter") }
        [7, 9] [[1, 2], [3, 4]] "index.hnsw" [] "l2" (entry [] SaveLocals.init)).2.trace
      = [Resource.space, Resource.object 0, Resource.object 24, Resource.index] ∧
    released (Java_com_amazon_opendistroforelasticsearch_knn_index_v2011_KNNIndex_saveIndex
        NativeSizes.nmslib
        { Scenario.quiet with CreateIndex := some (CppException.runtime_error "Bad parameter") }
        [7, 9] [[1, 2], [3, 4]] "index.hnsw" [] "l2" (entry [] SaveLocals.init)).2.trace
      = [Resource.object 0, Resource.object 24, Resource.index, Resource.space] ∧
    released (Java_com_amazon_opendistroforelasticsearch_knn_index_v2011_KNNIndex_saveIndex
        NativeSizes.nmslib
        { Scenario.quiet with CreateIndex := some (CppException.runtime_error "Bad parameter") }
        [7, 9] [[1, 2], [3, 4]] "index.hnsw" [] "l2" (entry [] SaveLocals.init)).2.trace
      ≠ (acquired (Java_com_amazon_opendistroforelasticsearch_knn_index_v2011_KNNIndex_saveIndex
        NativeSizes.nmslib
        { Scenario.quiet with CreateIndex := some (CppException.runtime_error "Bad parameter") }
        [7, 9] [[1, 2], [3, 4]] "index.hnsw" [] "l2"
        (entry [] SaveLocals.init)).2.trace).reverse := by
  refine ⟨?_, ?_, ?_, ?_⟩ <;> decide!

/-- C5 as amended: whatever step fails, and also when none fails, `saveIndex`
(short of undefined behaviour, and when `push_back` on line 130 does not throw)
returns with every native resource it acquired (space, index, record objects)
released exactly once, in the order record objects by position, then index,
then space, and nothing is released after the translated failure is raised. -/
theorem C5_release_exactly_once_in_fixed_order (S : NativeSizes) (sc : Scenario)
    (ids : List Int) (vectors : List (List Nat)) (indexPath : String)
    (algoParams : List String) (spaceType : String) (live : List Nat)
    (hpush : ∀ i e, sc.newObject i ≠ some (ObjectFailure.atPushBack e))
    (hdef : (Java_com_amazon_opendistroforelasticsearch_knn_index_v2011_KNNIndex_saveIndex S sc
      ids vectors indexPath algoParams spaceType (entry live SaveLocals.init)).1
        ≠ Outcome.undefined) :
    (Java_com_amazon_opendistroforelasticsearch_knn_index_v2011_KNNIndex_saveIndex S sc
      ids vectors indexPath algoParams spaceType (entry live SaveLocals.init)).1
        = Outcome.ret () ∧
    released (Java_com_amazon_opendistroforelasticsearch_knn_index_v2011_KNNIndex_saveIndex S sc
        ids vectors indexPath algoParams spaceType (entry live SaveLocals.init)).2.trace
      = releaseOrder (acquired
          (Java_com_amazon_opendistroforelasticsearch_knn_index_v2011_KNNIndex_saveIndex S sc
            ids vectors indexPath algoParams spaceType (entry live SaveLocals.init)).2.trace) ∧
    (released (Java_com_amazon_opendistroforelasticsearch_knn_index_v2011_KNNIndex_saveIndex S sc
        ids vectors indexPath algoParams spaceType (entry live SaveLocals.init)).2.trace).Perm
      (acquired (Java_com_amazon_opendistroforelasticsearch_knn_index_v2011_KNNIndex_saveIndex S
        sc ids vectors indexPath algoParams spaceType (entry live SaveLocals.init)).2.trace) ∧
    released (sinceRaise
      (Java_com_amazon_opendistroforelasticsearch_knn_index_v2011_KNNIndex_saveIndex S sc
        ids vectors indexPath algoParams spaceType (entry live SaveLocals.init)).2.trace) = [] :=
  ⟨(saveIndex_released S sc ids vectors indexPath algoParams spaceType _
      (buildStart_entry live) hpush hdef).1,
   (saveIndex_released S sc ids vectors indexPath algoParams spaceType _
      (buildStart_entry live) hpush hdef).2⟩

/-- Witness of C5 as amended: two records, and `SaveIndex` throws. -/
theorem C5_release_exactly_once_in_fixed_order_witness :
    released (Java_com_amazon_opendistroforelasticsearch_knn_index_v2011_KNNIndex_saveIndex
        NativeSizes.nmslib
        { Scenario.quiet with SaveIndex := some (CppException.runtime_error "Cannot open file") }
        [7, 9] [[1, 2], [3, 4]] "index.hnsw" [] "l2" (entry [] SaveLocals.init)).2.trace
      = releaseOrder (acquired
          (Java_com_amazon_opendistroforelasticsearch_knn_index_v2011_KNNIndex_saveIndex
            NativeSizes.nmslib
            { Scenario.quiet with
              SaveIndex := some (CppException.runtime_error "Cannot open file") }
            [7, 9] [[1, 2], [3, 4]] "index.hnsw" [] "l2" (entry [] SaveLocals.init)).2.trace) :=
  (C5_release_exactly_once_in_fixed_order NativeSizes.nmslib
    { Scenario.quiet with SaveIndex := some (CppException.runtime_error "Cannot open file") }
    [7, 9] [[1, 2], [3, 4]] "index.hnsw" [] "l2" [] (fun _ _ h => by cases h) (by decide!)).2.1

theorem writeAt_length (b : List Nat) (d : Nat) (x : List Nat) (h : d + x.length ≤ b.length) :
    (writeAt b d x).length = b.length := by
  simp [writeAt]
  omega

theorem writeAt_writeAt (b : List Nat) (d : Nat) (x y : List Nat)
    (h : d + x.length + y.length ≤ b.length) :
    writeAt (writeAt b d x) (d + x.length) y = writeAt b d (x ++ y) := by
  unfold writeAt
  have h1 : (b.take d ++ x).length = d + x.length := by simp; omega
  have e1 : (b.take d ++ x ++ b.drop (d + x.length)).take (d + x.length) = b.take d ++ x :=
    List.take_left' h1
  have e2 : (b.take d ++ x ++ b.drop (d + x.length)).drop (d + x.length + y.length)
      = b.drop (d + (x ++ y).length) := by
    rw [← List.drop_drop, List.drop_left' h1, List.drop_drop]
    congr 1
    simp
    omega
  rw [e1, e2]
  simp

theorem memcpy_run {L : Type} (buffer : List Nat) (dst : Nat) (src : List Nat) (n : Nat)
    (s : Frame L) (h1 : n ≤ src.length) (h2 : dst + n ≤ buffer.length) :
    memcpy buffer dst src n s = (Outcome.ret (writeAt buffer dst (src.take n)), s) := by
  unfold memcpy
  rw [if_pos ⟨h1, h2⟩]
  simp [writeAt, pure_run, Nat.min_eq_left h1]

theorem seq_memcpy {L β : Type} (buffer : List Nat) (dst : Nat) (src : List Nat) (n : Nat)
    (f : List Nat → Prog L β) (s : Frame L) (h1 : n ≤ src.length)
    (h2 : dst + n ≤ buffer.length) :
    (memcpy buffer dst src n >>= f) s = f (writeAt buffer dst (src.take n)) s :=
  seq_ret (memcpy_run buffer dst src n s h1 h2)

theorem packed_nil (sc : Scenario) (s : Frame SaveLocals) : packed sc [] [] s = s := by
  simp [packed, advance, raisedIn]

theorem packed_packed (sc : Scenario) (t u : List Event) (p q : List Nat)
    (s : Frame SaveLocals) :
    packed sc u q (packed sc t p s) = packed sc (t ++ u) (p ++ q) s := by
  simp [packed, advance, raisedIn, List.any_append, Bool.or_assoc]

theorem advance_packed (sc : Scenario) (t u : List Event) (p : List Nat)
    (s : Frame SaveLocals) :
    advance sc u (packed sc t p s) = packed sc (t ++ u) p s := by
  simp [packed, advance, raisedIn, List.any_append, Bool.or_assoc]

theorem pushObject_run (sc : Scenario) (i ptr : Nat) (s : Frame SaveLocals)
    (hobj : sc.newObject i = none) :
    pushObject sc i ptr s
      = (Outcome.ret (), packed sc [Event.create (Resource.object ptr)] [ptr] s) := by
  unfold pushObject
  rw [hobj]
  simp [packed, advance, raisedIn]

theorem copiedRecord_length (S : NativeSizes) (ids : List Int) (vectors : List (List Nat))
    (vsb i : Nat)
    (hid : S.ID_SIZE ≤ ((idsMemory ids).drop (4 * i)).length)
    (hdl : S.DATALENGTH_SIZE ≤ 8)
    (hv : vsb ≤ (floatsMemory (vectors.getD i [])).length) :
    (copiedRecord S ids vectors vsb i).length = recordSize S vsb := by
  have h8 : ∀ x, (leBytes 8 x).length = 8 := by intro x; rfl
  simp only [copiedRecord, recordSize, List.length_append, List.length_take, defaultLabelMemory,
    List.length_replicate, sizeMemory, h8]
  omega

/-- One round of the packing loop writes one record at `ptr`. -/
theorem packRound_buffer (S : NativeSizes) (ids : List Int) (vectors : List (List Nat))
    (vsb i ptr : Nat) (buffer : List Nat)
    (hid : S.ID_SIZE ≤ ((idsMemory ids).drop (4 * i)).length)
    (hdl : S.DATALENGTH_SIZE ≤ 8)
    (hv : vsb ≤ (floatsMemory (vectors.getD i [])).length)
    (hbuf : ptr + recordSize S vsb ≤ buffer.length) :
    writeAt
      (writeAt
        (writeAt
          (writeAt buffer ptr (((idsMemory ids).drop (4 * i)).take S.ID_SIZE))
          (ptr + S.ID_SIZE) ((defaultLabelMemory S).take S.LABEL_SIZE))
        (ptr + S.ID_SIZE + S.LABEL_SIZE) ((sizeMemory vsb).take S.DATALENGTH_SIZE))
      (ptr + S.ID_SIZE + S.LABEL_SIZE + S.DATALENGTH_SIZE)
      ((floatsMemory (vectors.getD i [])).take vsb)
    = writeAt buffer ptr (copiedRecord S ids vectors vsb i) := by
  have h8 : ∀ x, (leBytes 8 x).length = 8 := by intro x; rfl
  have la : (((idsMemory ids).drop (4 * i)).take S.ID_SIZE).length = S.ID_SIZE := by
    rw [List.length_take]; omega
  have lb : ((defaultLabelMemory S).take S.LABEL_SIZE).length = S.LABEL_SIZE := by
    simp [defaultLabelMemory]
  have lc : ((sizeMemory vsb).take S.DATALENGTH_SIZE).length = S.DATALENGTH_SIZE := by
    rw [List.length_take, sizeMemory, h8]; omega
  have ld : ((floatsMemory (vectors.getD i [])).take vsb).length = vsb := by
    rw [List.length_take]; omega
  unfold recordSize at hbuf
  have e1 := writeAt_writeAt buffer ptr (((idsMemory ids).drop (4 * i)).take S.ID_SIZE)
    ((defaultLabelMemory S).take S.LABEL_SIZE) (by rw [la, lb]; omega)
  rw [la] at e1
  rw [e1]
  have e2 := writeAt_writeAt buffer ptr
    (((idsMemory ids).drop (4 * i)).take S.ID_SIZE ++ (defaultLabelMemory S).take S.LABEL_SIZE)
    ((sizeMemory vsb).take S.DATALENGTH_SIZE)
    (by rw [List.length_append, la, lb, lc]; omega)
  rw [List.length_append, la, lb,
    show ptr + (S.ID_SIZE + S.LABEL_SIZE) = ptr + S.ID_SIZE + S.LABEL_SIZE by omega] at e2
  rw [e2]
  have e3 := writeAt_writeAt buffer ptr
    (((idsMemory ids).drop (4 * i)).take S.ID_SIZE ++ (defaultLabelMemory S).take S.LABEL_SIZE
      ++ (sizeMemory vsb).take S.DATALENGTH_SIZE)
    ((floatsMemory (vectors.getD i [])).take vsb)
    (by rw [List.length_append, List.length_append, la, lb, lc, ld]; omega)
  rw [List.length_append, List.length_append, la, lb, lc,
    show ptr + (S.ID_SIZE + S.LABEL_SIZE + S.DATALENGTH_SIZE)
      = ptr + S.ID_SIZE + S.LABEL_SIZE + S.DATALENGTH_SIZE by omega] at e3
  rw [e3]
  rfl

/-- The packing loop, when no allocation fails and every copy stays inside its
source and inside the buffer, returns the packed buffer. -/
theorem packLoop_run (S : NativeSizes) (sc : Scenario) (ids : List Int)
    (vectors : List (List Nat)) (vsb : Nat) (hobj : ∀ j, sc.newObject j = none)
    (hdl : S.DATALENGTH_SIZE ≤ 8) :
    ∀ (n i : Nat) (buffer : List Nat) (s : Frame SaveLocals),
      buffer.length = (i + n) * recordSize S vsb →
      (∀ j, i ≤ j → j < i + n → S.ID_SIZE ≤ ((idsMemory ids).drop (4 * j)).length) →
      (∀ j, i ≤ j → j < i + n → vsb ≤ (floatsMemory (vectors.getD j [])).length) →
      packLoop S sc ids vectors vsb n i (i * recordSize S vsb) buffer s =
        (Outcome.ret (packedBuffer S ids vectors vsb n i buffer),
          packed sc (packEvents (recordSize S vsb) n i) (packOffsets (recordSize S vsb) n i) s)
    := by
  intro n
  induction n with
  | zero =>
    intro i buffer s _ _ _
    simp [packLoop, packedBuffer, packEvents, packOffsets, packed_nil, pure_run]
  | succ n ih =>
    intro i buffer s hlen hid hv
    have hid0 := hid i (le_refl i) (by omega)
    have hv0 := hv i (le_refl i) (by omega)
    have hroom : i * recordSize S vsb + recordSize S vsb ≤ buffer.length := by
      rw [hlen, Nat.add_mul, Nat.add_mul, Nat.one_mul]
      omega
    have h8 : ∀ x, (leBytes 8 x).length = 8 := by intro x; rfl
    have hr : recordSize S vsb = S.ID_SIZE + S.LABEL_SIZE + S.DATALENGTH_SIZE + vsb := rfl
    unfold packLoop
    rw [seq_ret (pushObject_run sc i _ s (hobj i))]
    rw [seq_memcpy _ _ _ _ _ _ hid0 (by omega)]
    rw [seq_memcpy _ _ _ _ _ _ (by simp [defaultLabelMemory])
      (by rw [writeAt_length _ _ _ (by rw [List.length_take]; omega)]; omega)]
    rw [seq_memcpy _ _ _ _ _ _ (by rw [sizeMemory, h8]; exact hdl)
      (by
        rw [writeAt_length _ _ _ (by simp [defaultLabelMemory]; rw [writeAt_length _ _ _ (by rw [List.length_take]; omega)]; omega),
          writeAt_length _ _ _ (by rw [List.length_take]; omega)]
        omega)]
    rw [seq_jni, seq_jni]
    rw [seq_memcpy _ _ _ _ _ _ hv0
      (by
        rw [writeAt_length _ _ _ (by
              rw [List.length_take, sizeMemory, h8,
                writeAt_length _ _ _ (by simp [defaultLabelMemory]; rw [writeAt_length _ _ _ (by rw [List.length_take]; omega)]; omega),
                writeAt_length _ _ _ (by rw [List.length_take]; omega)]
              omega),
          writeAt_length _ _ _ (by simp [defaultLabelMemory]; rw [writeAt_length _ _ _ (by rw [List.length_take]; omega)]; omega),
          writeAt_length _ _ _ (by rw [List.length_take]; omega)]
        omega)]
    rw [seq_jni]
    rw [packRound_buffer S ids vectors vsb i _ buffer hid0 hdl hv0 (by omega)]
    have hp : i * recordSize S vsb + S.ID_SIZE + S.LABEL_SIZE + S.DATALENGTH_SIZE + vsb
        = (i + 1) * recordSize S vsb := by
      rw [Nat.add_mul, Nat.one_mul, hr]
      omega
    rw [hp]
    rw [ih (i + 1) _ _
      (by
        rw [writeAt_length _ _ _ (by
          rw [copiedRecord_length S ids vectors vsb i hid0 hdl hv0]; omega), hlen]
        congr 1
        omega)
      (fun j h1 h2 => hid j (by omega) (by omega))
      (fun j h1 h2 => hv j (by omega) (by omega))]
    simp only [advance_packed, packed_packed, packedBuffer, packEvents, packOffsets,
      packRoundEvents, List.cons_append, List.nil_append, List.singleton_append]


/-! ## The layout of the packed buffer -/

theorem leBytes_length : ∀ (n v : Nat), (leBytes n v).length = n := by
  intro n
  induction n with
  | zero => intro v; rfl
  | succ n ih => intro v; simp [leBytes, ih]

theorem flatten_map_length {α : Type} (f : α → List Nat) (m : Nat)
    (hf : ∀ x, (f x).length = m) :
    ∀ l : List α, ((l.map f).flatten).length = m * l.length := by
  intro l
  induction l with
  | nil => simp
  | cons x xs ih =>
    simp only [List.map_cons, List.flatten_cons, List.length_append, hf, ih, List.length_cons]
    rw [Nat.mul_succ]
    omega

theorem flatten_map_take {α : Type} (f : α → List Nat) (m : Nat)
    (hf : ∀ x, (f x).length = m) :
    ∀ (l : List α) (k : Nat), ((l.map f).flatten).take (m * k) = ((l.take k).map f).flatten := by
  intro l
  induction l with
  | nil => intro k; simp
  | cons x xs ih =>
    intro k
    cases k with
    | zero => simp
    | succ k =>
      simp only [List.map_cons, List.flatten_cons, List.take_succ_cons]
      rw [Nat.mul_succ, Nat.add_comm, List.take_append_eq_append_take, hf x]
      rw [List.take_of_length_le (by rw [hf x]; omega)]
      simp [ih k]

theorem flatten_map_slice {α : Type} (f : α → List Nat) (m : Nat) (hf : ∀ x, (f x).length = m)
    (d : α) :
    ∀ (l : List α) (j : Nat), j < l.length →
      (((l.map f).flatten).drop (m * j)).take m = f (l.getD j d) := by
  intro l
  induction l with
  | nil => intro j hj; simp at hj
  | cons x xs ih =>
    intro j hj
    cases j with
    | zero =>
      simp only [List.map_cons, List.flatten_cons, Nat.mul_zero, List.drop_zero]
      rw [List.take_left' (hf x)]
      rfl
    | succ j =>
      simp only [List.map_cons, List.flatten_cons]
      rw [Nat.mul_succ, Nat.add_comm, ← List.drop_drop, List.drop_left' (hf x)]
      rw [ih j (by simpa using hj)]
      simp

theorem idsMemory_length (ids : List Int) : (idsMemory ids).length = 4 * ids.length :=
  flatten_map_length jintBytes 4 (fun _ => leBytes_length 4 _) ids

theorem floatsMemory_length (v : List Nat) : (floatsMemory v).length = 4 * v.length :=
  flatten_map_length (leBytes 4) 4 (fun _ => leBytes_length 4 _) v

/-- What one round copies is the record of the claim, when the identifier
field has the size of a `jint`, the length field has the size of a `size_t`
and the identifier exists. -/
theorem copiedRecord_eq_specRecord (S : NativeSizes) (ids : List Int)
    (vectors : List (List Nat)) (D i : Nat) (hid : S.ID_SIZE = 4) (hdl : S.DATALENGTH_SIZE = 8)
    (hi : i < ids.length) :
    copiedRecord S ids vectors (4 * D) i = specRecord S ids vectors D i := by
  unfold copiedRecord specRecord
  have e1 : ((idsMemory ids).drop (4 * i)).take S.ID_SIZE = jintBytes (ids.getD i 0) := by
    rw [hid]
    exact flatten_map_slice jintBytes 4 (fun _ => leBytes_length 4 _) 0 ids i hi
  have e2 : (defaultLabelMemory S).take S.LABEL_SIZE = List.replicate S.LABEL_SIZE 255 := by
    simp [defaultLabelMemory]
  have e3 : (sizeMemory (4 * D)).take S.DATALENGTH_SIZE = leBytes 8 (4 * D) := by
    rw [hdl, sizeMemory]
    exact List.take_of_length_le (by rw [leBytes_length])
  have e4 : (floatsMemory (vectors.getD i [])).take (4 * D)
      = floatsMemory ((vectors.getD i []).take D) :=
    flatten_map_take (leBytes 4) 4 (fun _ => leBytes_length 4 _) _ D
  rw [e1, e2, e3, e4]

theorem writeAt_take_before (b : List Nat) (d : Nat) (x : List Nat) (k : Nat) (hk : k ≤ d)
    (hd : d ≤ b.length) : (writeAt b d x).take k = b.take k := by
  unfold writeAt
  rw [List.append_assoc, List.take_append_of_le_length (by simp; omega), List.take_take]
  congr 1
  omega

theorem writeAt_slice (b : List Nat) (d : Nat) (x : List Nat) (h : d + x.length ≤ b.length) :
    ((writeAt b d x).drop d).take x.length = x := by
  unfold writeAt
  have h1 : (b.take d).length = d := by simp; omega
  rw [List.append_assoc, List.drop_left' h1, List.take_left' rfl]

/-- The packed buffer keeps what lies before the first record written, and has
every record of the rounds at its offset. -/
theorem packedBuffer_layout (S : NativeSizes) (ids : List Int) (vectors : List (List Nat))
    (vsb : Nat) :
    ∀ (n i : Nat) (b : List Nat),
      b.length = (i + n) * recordSize S vsb →
      (∀ j, i ≤ j → j < i + n →
        (copiedRecord S ids vectors vsb j).length = recordSize S vsb) →
      (packedBuffer S ids vectors vsb n i b).length = b.length ∧
      (packedBuffer S ids vectors vsb n i b).take (i * recordSize S vsb)
        = b.take (i * recordSize S vsb) ∧
      ∀ j, i ≤ j → j < i + n →
        ((packedBuffer S ids vectors vsb n i b).drop (j * recordSize S vsb)).take
          (recordSize S vsb) = copiedRecord S ids vectors vsb j := by
  intro n
  induction n with
  | zero =>
    intro i b _ _
    exact ⟨rfl, rfl, fun j h1 h2 => by omega⟩
  | succ n ih =>
    intro i b hlen hrec
    have hri := hrec i (le_refl i) (by omega)
    have hroom : i * recordSize S vsb + recordSize S vsb ≤ b.length := by
      rw [hlen, Nat.add_mul, Nat.add_mul, Nat.one_mul]
      omega
    have hnext : (i + 1) * recordSize S vsb = i * recordSize S vsb + recordSize S vsb := by
      rw [Nat.add_mul, Nat.one_mul]
    have hw : (writeAt b (i * recordSize S vsb) (copiedRecord S ids vectors vsb i)).length
        = b.length := writeAt_length _ _ _ (by rw [hri]; exact hroom)
    obtain ⟨h1, h2, h3⟩ := ih (i + 1)
      (writeAt b (i * recordSize S vsb) (copiedRecord S ids vectors vsb i))
      (by rw [hw, hlen]; congr 1; omega)
      (fun j ha hb => hrec j (by omega) (by omega))
    simp only [packedBuffer]
    refine ⟨by rw [h1, hw], ?_, ?_⟩
    · have e1 : (packedBuffer S ids vectors vsb n (i + 1)
            (writeAt b (i * recordSize S vsb) (copiedRecord S ids vectors vsb i))).take
              (i * recordSize S vsb)
          = ((packedBuffer S ids vectors vsb n (i + 1)
              (writeAt b (i * recordSize S vsb) (copiedRecord S ids vectors vsb i))).take
                ((i + 1) * recordSize S vsb)).take (i * recordSize S vsb) := by
        rw [List.take_take, Nat.min_eq_left (by omega)]
      rw [e1, h2, List.take_take, Nat.min_eq_left (by omega)]
      exact writeAt_take_before _ _ _ _ (le_refl _) (by omega)
    · intro j hj1 hj2
      by_cases hji : j = i
      · subst hji
        rw [List.take_drop, ← hnext, h2]
        have := writeAt_slice b (j * recordSize S vsb) (copiedRecord S ids vectors vsb j)
          (by rw [hri]; exact hroom)
        rw [hri, List.take_drop, ← hnext] at this
        exact this
      · exact h3 j (by omega) (by omega)


theorem readDimension_run (sc : Scenario) (vectors : List (List Nat)) (s : Frame SaveLocals)
    (hp : (advance sc (dimensionEvents vectors) s).pending = false) :
    readDimension sc vectors s
      = (Outcome.ret (dimensionOf vectors), advance sc (dimensionEvents vectors) s) := by
  unfold readDimension
  rw [seq_jni]
  cases vectors with
  | nil => rfl
  | cons first rest =>
    simp only []
    rw [seq_jni, seq_jni, advance_advance, advance_advance]
    simp only [dimensionEvents, List.cons_append, List.nil_append] at hp ⊢
    rw [hp]
    rfl

theorem newObjectBuffer_run (sc : Scenario) (size : Nat) (s : Frame SaveLocals)
    (hbuf : sc.newObjectBuffer = none) :
    newObjectBuffer sc size s
      = (Outcome.ret (List.replicate size 0),
          bufferOwned (advance sc [Event.create Resource.objectBuffer] s)) := by
  unfold newObjectBuffer
  rw [hbuf]
  simp [bufferOwned, advance, raisedIn]

theorem packLoop_run_start (S : NativeSizes) (sc : Scenario) (ids : List Int)
    (vectors : List (List Nat)) (vsb : Nat) (hobj : ∀ j, sc.newObject j = none)
    (hdl : S.DATALENGTH_SIZE ≤ 8) (n : Nat) (buffer : List Nat) (s : Frame SaveLocals)
    (hlen : buffer.length = n * recordSize S vsb)
    (hid : ∀ j, j < n → S.ID_SIZE ≤ ((idsMemory ids).drop (4 * j)).length)
    (hv : ∀ j, j < n → vsb ≤ (floatsMemory (vectors.getD j [])).length) :
    packLoop S sc ids vectors vsb n 0 0 buffer s =
      (Outcome.ret (packedBuffer S ids vectors vsb n 0 buffer),
        packed sc (packEvents (recordSize S vsb) n 0) (packOffsets (recordSize S vsb) n 0) s) := by
  have h := packLoop_run S sc ids vectors vsb hobj hdl n 0 buffer s (by simpa using hlen)
    (fun j _ hj => hid j (by omega)) (fun j _ hj => hv j (by omega))
  rw [Nat.zero_mul] at h
  exact h

/-- The packer (lines 105-146) returns the packed buffer when the runtime flags
nothing while the dimension is read, no allocation fails, there is an
identifier for every vector, no vector is shorter than the first, and the size
of the buffer fits a `size_t`. -/
theorem packVectors_run (S : NativeSizes) (sc : Scenario) (ids : List Int)
    (vectors : List (List Nat)) (s : Frame SaveLocals)
    (hid : S.ID_SIZE = 4) (hdl : S.DATALENGTH_SIZE ≤ 8)
    (hids : vectors.length ≤ ids.length)
    (hlen : ∀ v ∈ vectors, dimensionOf vectors ≤ v.length)
    (hfit : vectors.length * recordSize S (4 * dimensionOf vectors) < 2 ^ 64)
    (hp : (advance sc (dimensionEvents vectors) s).pending = false)
    (hbuf : sc.newObjectBuffer = none) (hobj : ∀ j, sc.newObject j = none) :
    packVectors S sc ids vectors s =
      (Outcome.ret (packedBuffer S ids vectors (4 * dimensionOf vectors) vectors.length 0
          (List.replicate (vectors.length * recordSize S (4 * dimensionOf vectors)) 0)),
        packed sc (packEvents (recordSize S (4 * dimensionOf vectors)) vectors.length 0)
          (packOffsets (recordSize S (4 * dimensionOf vectors)) vectors.length 0)
          (bufferOwned (advance sc (dimensionEvents vectors
            ++ [Event.create Resource.objectBuffer]) s))) := by
  unfold packVectors
  rw [seq_ret (readDimension_run sc vectors s hp)]
  by_cases hnil : vectors = []
  · subst hnil
    simp only [dimensionOf, List.headD_nil, List.length_nil, Nat.zero_mul, Nat.mul_zero,
      Nat.zero_mod]
    rw [seq_ret (newObjectBuffer_run sc _ _ hbuf)]
    simp [packLoop, packedBuffer, packEvents, packOffsets, packed_nil, pure_run,
      advance_advance]
  · have hpos : 0 < vectors.length := List.length_pos.mpr hnil
    have h1 : recordSize S (4 * dimensionOf vectors)
        ≤ vectors.length * recordSize S (4 * dimensionOf vectors) :=
      Nat.le_mul_of_pos_left _ hpos
    have hr : recordSize S (4 * dimensionOf vectors)
        = S.ID_SIZE + S.LABEL_SIZE + S.DATALENGTH_SIZE + 4 * dimensionOf vectors := rfl
    have hv : dimensionOf vectors * 4 % SIZE_MAX1 = 4 * dimensionOf vectors := by
      rw [Nat.mul_comm, SIZE_MAX1]
      exact Nat.mod_eq_of_lt (by omega)
    have h2 : (S.ID_SIZE + S.LABEL_SIZE + S.DATALENGTH_SIZE + 4 * dimensionOf vectors)
        % SIZE_MAX1 = recordSize S (4 * dimensionOf vectors) := by
      rw [SIZE_MAX1]
      exact Nat.mod_eq_of_lt (by omega)
    have hsize : (S.ID_SIZE + S.LABEL_SIZE + S.DATALENGTH_SIZE
          + 4 * dimensionOf vectors) % SIZE_MAX1 * vectors.length % SIZE_MAX1
        = vectors.length * recordSize S (4 * dimensionOf vectors) := by
      rw [h2, Nat.mul_comm, SIZE_MAX1]
      exact Nat.mod_eq_of_lt hfit
    simp only [hv, hsize]
    rw [seq_ret (newObjectBuffer_run sc _ _ hbuf)]
    rw [packLoop_run_start S sc ids vectors (4 * dimensionOf vectors) hobj hdl vectors.length
      (List.replicate (vectors.length * recordSize S (4 * dimensionOf vectors)) 0) _
      (by simp)
      (fun j hj => by
        rw [List.length_drop, idsMemory_length, hid]
        omega)
      (fun j hj => by
        rw [floatsMemory_length]
        have := hlen (vectors.getD j []) (by
          rw [List.getD_eq_getElem _ _ hj]
          exact List.getElem_mem _)
        omega)]
    simp [advance_advance]

theorem packOffsets_eq (r : Nat) : ∀ n i, packOffsets r n i = (List.range' i n).map (· * r) := by
  intro n
  induction n with
  | zero => intro i; rfl
  | succ n ih => intro i; simp [packOffsets, ih, List.range'_succ]

theorem packOffsets_start (r n : Nat) : packOffsets r n 0 = (List.range n).map (· * r) := by
  rw [packOffsets_eq, List.range_eq_range']

/-- The buffer the packer returns: `N` records of `recordSize` bytes, the
`i`-th being the record of the claim for the dimension of the first vector. -/
theorem packedBuffer_records (S : NativeSizes) (ids : List Int) (vectors : List (List Nat))
    (hid : S.ID_SIZE = 4) (hdl : S.DATALENGTH_SIZE = 8)
    (hids : vectors.length ≤ ids.length)
    (hlen : ∀ v ∈ vectors, dimensionOf vectors ≤ v.length) :
    (packedBuffer S ids vectors (4 * dimensionOf vectors) vectors.length 0
        (List.replicate (vectors.length * recordSize S (4 * dimensionOf vectors)) 0)).length
      = vectors.length * recordSize S (4 * dimensionOf vectors) ∧
    ∀ i, i < vectors.length →
      ((packedBuffer S ids vectors (4 * dimensionOf vectors) vectors.length 0
          (List.replicate (vectors.length * recordSize S (4 * dimensionOf vectors)) 0)).drop
            (i * recordSize S (4 * dimensionOf vectors))).take
          (recordSize S (4 * dimensionOf vectors))
        = specRecord S ids vectors (dimensionOf vectors) i := by
  have hrec : ∀ j, 0 ≤ j → j < 0 + vectors.length →
      (copiedRecord S ids vectors (4 * dimensionOf vectors) j).length
        = recordSize S (4 * dimensionOf vectors) := by
    intro j _ hj
    apply copiedRecord_length
    · rw [List.length_drop, idsMemory_length, hid]
      omega
    · omega
    · rw [floatsMemory_length]
      have hj1 : j < vectors.length := by omega
      have := hlen (vectors.getD j []) (by
        rw [List.getD_eq_getElem _ _ hj1]
        exact List.getElem_mem _)
      omega
  obtain ⟨h1, _, h3⟩ := packedBuffer_layout S ids vectors (4 * dimensionOf vectors)
    vectors.length 0
    (List.replicate (vectors.length * recordSize S (4 * dimensionOf vectors)) 0)
    (by simp) hrec
  refine ⟨by rw [h1]; simp, ?_⟩
  intro i hi
  rw [h3 i (Nat.zero_le i) (by omega)]
  exact copiedRecord_eq_specRecord S ids vectors _ i hid hdl (by omega)

/-- C1: for a batch of `N` vectors, all of length `D`, with an identifier for
each, the packer of `saveIndex` returns a buffer of exactly
`N * (ID_SIZE + LABEL_SIZE + DATALENGTH_SIZE + 4 * D)` bytes in which the record
of index `i` starts at `i` times the record size and consists, with nothing in
between, of the identifier `ids[i]`, the label `-1`, the payload length `4 * D`
and the `D` components of `vectors[i]`; the `i`-th record view of the dataset
points at that offset; an empty batch gives an empty buffer and an empty
dataset. The sizes are those of the objects copied (a `jint` identifier, a
`size_t` length), the size of the buffer fits a `size_t`, no allocation fails
and the runtime flags nothing while the dimension is read. -/
theorem C1_packed_buffer_layout (S : NativeSizes) (sc : Scenario) (ids : List Int)
    (vectors : List (List Nat)) (D : Nat) (s : Frame SaveLocals)
    (hid : S.ID_SIZE = 4) (hdl : S.DATALENGTH_SIZE = 8)
    (hids : vectors.length ≤ ids.length)
    (hD : ∀ v ∈ vectors, v.length = D)
    (hfit : vectors.length * (S.ID_SIZE + S.LABEL_SIZE + S.DATALENGTH_SIZE + 4 * D) < 2 ^ 64)
    (hpending : s.pending = false) (hraise : raisedIn sc (dimensionEvents vectors) = false)
    (hbuf : sc.newObjectBuffer = none) (hobj : ∀ j, sc.newObject j = none)
    (hdataset : s.locals.dataset = []) :
    ∃ buffer s1, packVectors S sc ids vectors s = (Outcome.ret buffer, s1) ∧
      buffer.length
        = vectors.length * (S.ID_SIZE + S.LABEL_SIZE + S.DATALENGTH_SIZE + 4 * D) ∧
      (∀ i, i < vectors.length →
        (buffer.drop (i * (S.ID_SIZE + S.LABEL_SIZE + S.DATALENGTH_SIZE + 4 * D))).take
            (S.ID_SIZE + S.LABEL_SIZE + S.DATALENGTH_SIZE + 4 * D)
          = jintBytes (ids.getD i 0) ++ List.replicate S.LABEL_SIZE 255 ++ leBytes 8 (4 * D)
              ++ floatsMemory (vectors.getD i [])) ∧
      s1.locals.dataset = (List.range vectors.length).map
        (fun i => i * (S.ID_SIZE + S.LABEL_SIZE + S.DATALENGTH_SIZE + 4 * D)) ∧
      (vectors = [] → buffer = [] ∧ s1.locals.dataset = []) := by
  have hp : (advance sc (dimensionEvents vectors) s).pending = false := by
    simp [advance, hpending, hraise]
  by_cases hnil : vectors = []
  · subst hnil
    have hrun := packVectors_run S sc ids [] s hid (by omega) (by simp) (by simp) (by simp) hp
      hbuf hobj
    refine ⟨_, _, hrun, ?_, ?_, ?_, ?_⟩
    · simp [packedBuffer]
    · intro i hi
      simp at hi
    · simp [packed, packOffsets, bufferOwned, advance, hdataset]
    · intro _
      simp [packedBuffer, packed, packOffsets, bufferOwned, advance, hdataset]
  · have hdim : dimensionOf vectors = D := by
      cases vectors with
      | nil => exact absurd rfl hnil
      | cons first rest => exact hD first (List.mem_cons_self _ _)
    have hlen : ∀ v ∈ vectors, dimensionOf vectors ≤ v.length := by
      intro v hv
      rw [hdim, hD v hv]
    have hfit1 : vectors.length * recordSize S (4 * dimensionOf vectors) < 2 ^ 64 := by
      rw [hdim]
      exact hfit
    have hrun := packVectors_run S sc ids vectors s hid (by omega) hids hlen hfit1 hp hbuf hobj
    obtain ⟨hl, hrec⟩ := packedBuffer_records S ids vectors hid hdl hids hlen
    rw [hdim] at hrun hl hrec
    refine ⟨_, _, hrun, hl, ?_, ?_, ?_⟩
    · intro i hi
      have h1 := hrec i hi
      unfold specRecord at h1
      have hvi : (vectors.getD i []).length = D := hD _ (by
        rw [List.getD_eq_getElem _ _ hi]
        exact List.getElem_mem _)
      have e : (vectors.getD i []).take D = vectors.getD i [] :=
        List.take_of_length_le (by omega)
      rw [e] at h1
      exact h1
    · show s.locals.dataset ++ packOffsets _ _ 0 = _
      rw [hdataset, packOffsets_start]
      rfl
    · intro h
      exact absurd h hnil

/-- Witness of C1: two vectors of two components with the sizes of nmslib; the
buffer has 48 bytes and the record views are at 0 and 24. -/
theorem C1_packed_buffer_layout_witness :
    ∃ buffer s1,
      packVectors NativeSizes.nmslib Scenario.quiet [7, 9] [[1, 2], [3, 4]]
        (entry [] SaveLocals.init) = (Outcome.ret buffer, s1) ∧
      buffer.length = 48 ∧ s1.locals.dataset = [0, 24] :=
  match C1_packed_buffer_layout NativeSizes.nmslib Scenario.quiet [7, 9] [[1, 2], [3, 4]] 2
      (entry [] SaveLocals.init) rfl rfl (by decide) (by decide) (by decide) rfl rfl rfl
      (fun _ => rfl) rfl with
  | ⟨buffer, s1, h1, h2, _, h4, _⟩ => ⟨buffer, s1, h1, h2, h4⟩


/-! ## `saveIndex` when nothing fails -/

theorem readParams_run {L : Type} (sc : Scenario) (hquiet : ∀ c, sc.raises c = false) :
    ∀ (n i : Nat) (s : Frame L),
      readParams sc n i s = (Outcome.ret (), advance sc (readParamsEvents n i) s) := by
  intro n
  induction n with
  | zero => intro i s; simp [readParams, readParamsEvents, advance_nil, pure_run]
  | succ n ih =>
    intro i s
    unfold readParams
    rw [seq_jni, seq_string_ret sc _ _ _ (hquiet _), seq_jni, ih, advance_advance,
      advance_advance, advance_advance]
    rfl

theorem nativeCalls_readParamsEvents : ∀ n i, nativeCalls (readParamsEvents n i) = [] := by
  intro n
  induction n with
  | zero => intro i; rfl
  | succ n ih =>
    intro i
    show nativeCalls ([_, _, _] ++ readParamsEvents n (i + 1)) = []
    rw [nativeCalls_append, ih]
    rfl

theorem thrownNew_readParamsEvents : ∀ n i, thrownNew (readParamsEvents n i) = [] := by
  intro n
  induction n with
  | zero => intro i; rfl
  | succ n ih =>
    intro i
    show thrownNew ([_, _, _] ++ readParamsEvents n (i + 1)) = []
    rw [thrownNew_append, ih]
    rfl

theorem nativeCalls_packEvents (r : Nat) : ∀ n i, nativeCalls (packEvents r n i) = [] := by
  intro n
  induction n with
  | zero => intro i; rfl
  | succ n ih =>
    intro i
    show nativeCalls (packRoundEvents i (i * r) ++ packEvents r n (i + 1)) = []
    rw [nativeCalls_append, ih]
    rfl

theorem thrownNew_packEvents (r : Nat) : ∀ n i, thrownNew (packEvents r n i) = [] := by
  intro n
  induction n with
  | zero => intro i; rfl
  | succ n ih =>
    intro i
    show thrownNew (packRoundEvents i (i * r) ++ packEvents r n (i + 1)) = []
    rw [thrownNew_append, ih]
    rfl

theorem nativeCalls_dimensionEvents (vectors : List (List Nat)) :
    nativeCalls (dimensionEvents vectors) = [] := by
  cases vectors <;> rfl

theorem thrownNew_dimensionEvents (vectors : List (List Nat)) :
    thrownNew (dimensionEvents vectors) = [] := by
  cases vectors <;> rfl

theorem nativeCalls_cleanupEvents (l : SaveLocals) : nativeCalls (cleanupEvents l) = [] := by
  have h : ∀ ps : List Nat,
      nativeCalls (ps.map (fun p => Event.destroy (Resource.object p))) = [] := by
    intro ps
    induction ps with
    | nil => rfl
    | cons p ps ih =>
      show nativeCalls ([Event.destroy (Resource.object p)] ++ _) = _
      rw [nativeCalls_append, ih]
      rfl
  unfold cleanupEvents
  rw [nativeCalls_append, nativeCalls_append, h]
  cases l.space <;> cases l.index <;> rfl

theorem thrownNew_cleanupEvents (l : SaveLocals) : thrownNew (cleanupEvents l) = [] := by
  unfold cleanupEvents
  rw [thrownNew_append, thrownNew_append, thrownNew_map_destroy_object]
  cases l.space <;> cases l.index <;> rfl

theorem assignSpace_run (sc : Scenario) (spaceType : String) (s : Frame SaveLocals)
    (h : sc.CreateSpace = none) :
    assignSpace sc spaceType s =
      (Outcome.ret (),
        { advance sc [Event.native (NativeCall.CreateSpace spaceType),
                      Event.create Resource.space] s with
          locals := { s.locals with space := true } }) := by
  unfold assignSpace
  rw [h]
  simp [advance, raisedIn]

theorem assignObjectIds_run (sc : Scenario) (s : Frame SaveLocals) :
    assignObjectIds sc s =
      (Outcome.ret (),
        { advance sc [Event.jni (JniCall.GetIntArrayElements JArray.ids)] s with
          locals := { s.locals with
            object_ids := !sc.raises (JniCall.GetIntArrayElements JArray.ids) } }) := by
  simp [assignObjectIds, advance, raisedIn]

theorem assignIndex_run (sc : Scenario) (spaceType : String) (buffer : List Nat)
    (s : Frame SaveLocals) (h : sc.CreateMethod = none) :
    assignIndex sc spaceType buffer s =
      (Outcome.ret (),
        { advance sc [Event.native (NativeCall.CreateMethod spaceType s.locals.dataset buffer),
                      Event.create Resource.index] s with
          locals := { s.locals with index := true } }) := by
  unfold assignIndex
  rw [h]
  simp [advance, raisedIn]

theorem raisedIn_quiet (sc : Scenario) (hq : ∀ c, sc.raises c = false) (t : List Event) :
    raisedIn sc t = false := by
  simp only [raisedIn, List.any_eq_false]
  intro e _
  cases e <;> simp [hq]

theorem seq_packVectors {β : Type} (S : NativeSizes) (sc : Scenario) (ids : List Int)
    (vectors : List (List Nat)) (f : List Nat → Prog SaveLocals β) (s : Frame SaveLocals)
    (hid : S.ID_SIZE = 4) (hdl : S.DATALENGTH_SIZE ≤ 8)
    (hids : vectors.length ≤ ids.length)
    (hlen : ∀ v ∈ vectors, dimensionOf vectors ≤ v.length)
    (hfit : vectors.length * recordSize S (4 * dimensionOf vectors) < 2 ^ 64)
    (hbuf : sc.newObjectBuffer = none) (hobj : ∀ j, sc.newObject j = none)
    (hp : (advance sc (dimensionEvents vectors) s).pending = false) :
    (packVectors S sc ids vectors >>= f) s =
      f (packedBuffer S ids vectors (4 * dimensionOf vectors) vectors.length 0
          (List.replicate (vectors.length * recordSize S (4 * dimensionOf vectors)) 0))
        (packed sc (packEvents (recordSize S (4 * dimensionOf vectors)) vectors.length 0)
          (packOffsets (recordSize S (4 * dimensionOf vectors)) vectors.length 0)
          (bufferOwned (advance sc (dimensionEvents vectors
            ++ [Event.create Resource.objectBuffer]) s))) :=
  seq_ret (packVectors_run S sc ids vectors s hid hdl hids hlen hfit hp hbuf hobj)

/-- The run of the `try` block of `saveIndex` when nothing fails: it returns,
and the calls into the native library are `CreateSpace`, `CreateMethod` on the
packed dataset, `CreateIndex` and `SaveIndex`. -/
theorem saveIndex_try_quiet (S : NativeSizes) (sc : Scenario) (ids : List Int)
    (vectors : List (List Nat)) (indexPath : String) (algoParams : List String)
    (spaceType : String) (live : List Nat)
    (hid : S.ID_SIZE = 4) (hdl : S.DATALENGTH_SIZE ≤ 8)
    (hids : vectors.length ≤ ids.length)
    (hlen : ∀ v ∈ vectors, dimensionOf vectors ≤ v.length)
    (hfit : vectors.length * recordSize S (4 * dimensionOf vectors) < 2 ^ 64)
    (hquiet : ∀ c, sc.raises c = false)
    (hspace : sc.CreateSpace = none) (hbuf : sc.newObjectBuffer = none)
    (hobj : ∀ j, sc.newObject j = none) (hmethod : sc.CreateMethod = none)
    (hindex : sc.CreateIndex = none) (hsave : sc.SaveIndex = none) :
    ∃ s1, saveIndex_try S sc ids vectors indexPath algoParams spaceType
        (entry live SaveLocals.init) = (Outcome.ret (), s1) ∧
      thrownNew s1.trace = [] ∧
      nativeCalls s1.trace =
        [NativeCall.CreateSpace spaceType,
         NativeCall.CreateMethod spaceType
           (packOffsets (recordSize S (4 * dimensionOf vectors)) vectors.length 0)
           (packedBuffer S ids vectors (4 * dimensionOf vectors) vectors.length 0
             (List.replicate (vectors.length * recordSize S (4 * dimensionOf vectors)) 0)),
         NativeCall.CreateIndex algoParams,
         NativeCall.SaveIndex indexPath] := by
  have hrun : ∃ s1, saveIndex_try S sc ids vectors indexPath algoParams spaceType
      (entry live SaveLocals.init) = (Outcome.ret (), s1) ∧
      s1 = {
        trace :=
          ([Event.jni (JniCall.GetStringUTFChars JString.spaceType),
            Event.jni (JniCall.ReleaseStringUTFChars JString.spaceType),
            Event.native (NativeCall.CreateSpace spaceType),
            Event.create Resource.space,
            Event.jni (JniCall.GetIntArrayElements JArray.ids)]
            ++ dimensionEvents vectors ++ [Event.create Resource.objectBuffer]
            ++ packEvents (recordSize S (4 * dimensionOf vectors)) vectors.length 0
            ++ [Event.jni (JniCall.ReleaseIntArrayElements JArray.ids),
                Event.native (NativeCall.CreateMethod spaceType
                  (packOffsets (recordSize S (4 * dimensionOf vectors)) vectors.length 0)
                  (packedBuffer S ids vectors (4 * dimensionOf vectors) vectors.length 0
                    (List.replicate
                      (vectors.length * recordSize S (4 * dimensionOf vectors)) 0))),
                Event.create Resource.index,
                Event.jni (JniCall.GetArrayLength JArray.algoParams)]
            ++ readParamsEvents algoParams.length 0
            ++ [Event.native (NativeCall.CreateIndex algoParams),
                Event.jni (JniCall.GetStringUTFChars JString.indexPath),
                Event.native (NativeCall.SaveIndex indexPath),
                Event.jni (JniCall.ReleaseStringUTFChars JString.indexPath)]
            ++ cleanupEvents
                { space := true,
                  dataset := packOffsets (recordSize S (4 * dimensionOf vectors))
                    vectors.length 0,
                  index := true, object_ids := true, objectBuffer := true }),
        pending := false,
        live := live,
        locals :=
          { space := true,
            dataset := packOffsets (recordSize S (4 * dimensionOf vectors)) vectors.length 0,
            index := true, object_ids := true, objectBuffer := true } } := by
    refine ⟨_, ?_, rfl⟩
    unfold saveIndex_try
    rw [seq_string_ret sc _ _ _ (hquiet _), seq_jni, seq_has_exception_ret]
    rotate_left
    · simp [pending_advance_quiet sc hquiet, entry]
    rw [seq_ret (assignSpace_run sc spaceType _ hspace),
      seq_ret (assignObjectIds_run sc _),
      seq_packVectors S sc ids vectors _ _ hid hdl hids hlen hfit hbuf hobj]
    rotate_left
    · simp [advance, raisedIn_quiet sc hquiet, entry]
    rw [seq_jni, seq_ret (assignIndex_run sc spaceType _ _ hmethod), seq_jni,
      seq_ret (readParams_run sc hquiet _ _ _), hindex, seq_native_none sc,
      seq_has_exception_ret]
    rotate_left
    · simp [advance, raisedIn_quiet sc hquiet, entry, packed, bufferOwned]
    rw [seq_string_ret sc _ _ _ (hquiet _), hsave, seq_native_none sc, seq_jni,
      seq_has_exception_ret]
    rotate_left
    · simp [advance, raisedIn_quiet sc hquiet, entry, packed, bufferOwned]
    rw [cleanup_run]
    simp [advance, packed, bufferOwned, entry, raisedIn_quiet sc hquiet, SaveLocals.init,
      hquiet]
  obtain ⟨s1, h1, h2⟩ := hrun
  refine ⟨s1, h1, ?_, ?_⟩
  · rw [h2]
    simp only [thrownNew_append, thrownNew_packEvents, thrownNew_dimensionEvents,
      thrownNew_readParamsEvents, thrownNew_cleanupEvents]
    rfl
  · rw [h2]
    simp only [nativeCalls_append, nativeCalls_packEvents, nativeCalls_dimensionEvents,
      nativeCalls_readParamsEvents, nativeCalls_cleanupEvents]
    rfl


theorem leaveTry_ret {α : Type} (body : Prog SaveLocals α) (s s1 : Frame SaveLocals) (a : α)
    (h : body s = (Outcome.ret a, s1)) :
    ∃ s2, leaveTry body s = (Outcome.ret a, s2) ∧
      nativeCalls s2.trace = nativeCalls s1.trace ∧ thrownNew s2.trace = thrownNew s1.trace := by
  unfold leaveTry
  rw [h]
  by_cases hb : s1.locals.objectBuffer = true
  · refine ⟨{ s1 with
        trace := s1.trace ++ [Event.destroy Resource.objectBuffer],
        locals := { s1.locals with objectBuffer := false } }, by simp only [hb, if_true], ?_, ?_⟩
    · show nativeCalls (s1.trace ++ _) = _
      rw [nativeCalls_append]
      simp [nativeCalls]
    · show thrownNew (s1.trace ++ _) = _
      rw [thrownNew_append]
      simp [thrownNew]
  · exact ⟨s1, by simp only [hb]; rfl, rfl, rfl⟩

/-- C2 fails on the code: the second vector has two components and the first
has one, yet `saveIndex` raises nothing and calls `CreateSpace`, `CreateMethod`
(on records that hold one component each), `CreateIndex` and `SaveIndex`. -/
theorem C2_mismatched_batch_is_built :
    (∃ v ∈ [[1], [3, 4]], v.length ≠ (([[1], [3, 4]] : List (List Nat)).headD []).length) ∧
    (Java_com_amazon_opendistroforelasticsearch_knn_index_v2011_KNNIndex_saveIndex
        NativeSizes.nmslib Scenario.quiet [7, 9] [[1], [3, 4]] "index.hnsw" [] "l2"
        (entry [] SaveLocals.init)).1 = Outcome.ret () ∧
    thrownNew (Java_com_amazon_opendistroforelasticsearch_knn_index_v2011_KNNIndex_saveIndex
        NativeSizes.nmslib Scenario.quiet [7, 9] [[1], [3, 4]] "index.hnsw" [] "l2"
        (entry [] SaveLocals.init)).2.trace = [] ∧
    nativeCalls (Java_com_amazon_opendistroforelasticsearch_knn_index_v2011_KNNIndex_saveIndex
        NativeSizes.nmslib Scenario.quiet [7, 9] [[1], [3, 4]] "index.hnsw" [] "l2"
        (entry [] SaveLocals.init)).2.trace
      = [NativeCall.CreateSpace "l2",
         NativeCall.CreateMethod "l2" [0, 20]
           [7, 0, 0, 0, 255, 255, 255, 255, 4, 0, 0, 0, 0, 0, 0, 0, 1, 0, 0, 0,
            9, 0, 0, 0, 255, 255, 255, 255, 4, 0, 0, 0, 0, 0, 0, 0, 3, 0, 0, 0],
         NativeCall.CreateIndex [],
         NativeCall.SaveIndex "index.hnsw"] := by
  refine ⟨⟨[3, 4], by decide, by decide⟩, ?_, ?_, ?_⟩ <;> decide!

/-- C2 as amended: `saveIndex` does not compare the lengths of the vectors and
has no failure for a mismatch. For every batch in which no vector is shorter
than the first one, of length `D`, and with no failure of the runtime or of the
native library, it raises nothing and calls `CreateSpace`, `CreateMethod`,
`CreateIndex` and `SaveIndex`, in this order; the dataset handed to
`CreateMethod` has one record per vector, which holds the first `D` components
of the vector, so a longer vector is cut to `D` components. -/
theorem C2_no_dimension_check (S : NativeSizes) (sc : Scenario) (ids : List Int)
    (vectors : List (List Nat)) (indexPath : String) (algoParams : List String)
    (spaceType : String) (live : List Nat)
    (hid : S.ID_SIZE = 4) (hdl : S.DATALENGTH_SIZE = 8)
    (hids : vectors.length ≤ ids.length)
    (hlen : ∀ v ∈ vectors, dimensionOf vectors ≤ v.length)
    (hfit : vectors.length
      * (S.ID_SIZE + S.LABEL_SIZE + S.DATALENGTH_SIZE + 4 * dimensionOf vectors) < 2 ^ 64)
    (hquiet : ∀ c, sc.raises c = false)
    (hspace : sc.CreateSpace = none) (hbuf : sc.newObjectBuffer = none)
    (hobj : ∀ j, sc.newObject j = none) (hmethod : sc.CreateMethod = none)
    (hindex : sc.CreateIndex = none) (hsave : sc.SaveIndex = none) :
    (Java_com_amazon_opendistroforelasticsearch_knn_index_v2011_KNNIndex_saveIndex S sc ids
        vectors indexPath algoParams spaceType (entry live SaveLocals.init)).1
      = Outcome.ret () ∧
    thrownNew (Java_com_amazon_opendistroforelasticsearch_knn_index_v2011_KNNIndex_saveIndex S
        sc ids vectors indexPath algoParams spaceType (entry live SaveLocals.init)).2.trace
      = [] ∧
    ∃ buffer,
      nativeCalls (Java_com_amazon_opendistroforelasticsearch_knn_index_v2011_KNNIndex_saveIndex
          S sc ids vectors indexPath algoParams spaceType (entry live SaveLocals.init)).2.trace
        = [NativeCall.CreateSpace spaceType,
           NativeCall.CreateMethod spaceType
             ((List.range vectors.length).map (fun i =>
               i * (S.ID_SIZE + S.LABEL_SIZE + S.DATALENGTH_SIZE + 4 * dimensionOf vectors)))
             buffer,
           NativeCall.CreateIndex algoParams,
           NativeCall.SaveIndex indexPath] ∧
      buffer.length = vectors.length
        * (S.ID_SIZE + S.LABEL_SIZE + S.DATALENGTH_SIZE + 4 * dimensionOf vectors) ∧
      ∀ i, i < vectors.length →
        (buffer.drop
            (i * (S.ID_SIZE + S.LABEL_SIZE + S.DATALENGTH_SIZE + 4 * dimensionOf vectors))).take
          (S.ID_SIZE + S.LABEL_SIZE + S.DATALENGTH_SIZE + 4 * dimensionOf vectors)
        = jintBytes (ids.getD i 0) ++ List.replicate S.LABEL_SIZE 255
            ++ leBytes 8 (4 * dimensionOf vectors)
            ++ floatsMemory ((vectors.getD i []).take (dimensionOf vectors)) := by
  obtain ⟨s1, hrun, hthrown, hnative⟩ := saveIndex_try_quiet S sc ids vectors indexPath
    algoParams spaceType live hid (by omega) hids hlen hfit hquiet hspace hbuf hobj hmethod
    hindex hsave
  obtain ⟨s2, hleave, hn2, ht2⟩ := leaveTry_ret _ _ _ _ hrun
  have hfin : Java_com_amazon_opendistroforelasticsearch_knn_index_v2011_KNNIndex_saveIndex S sc
      ids vectors indexPath algoParams spaceType (entry live SaveLocals.init)
      = (Outcome.ret (), s2) := by
    unfold Java_com_amazon_opendistroforelasticsearch_knn_index_v2011_KNNIndex_saveIndex
    rw [tryCatch_run, hleave]
  obtain ⟨hl, hrec⟩ := packedBuffer_records S ids vectors hid hdl hids hlen
  rw [hfin]
  refine ⟨rfl, by rw [ht2, hthrown], _, ?_, hl, hrec⟩
  show nativeCalls s2.trace = _
  rw [hn2, hnative, packOffsets_start]
  rfl

/-- Witness of C2 as amended: the second vector is longer than the first. -/
theorem C2_no_dimension_check_witness :
    (Java_com_amazon_opendistroforelasticsearch_knn_index_v2011_KNNIndex_saveIndex
        NativeSizes.nmslib Scenario.quiet [7, 9] [[1], [3, 4]] "index.hnsw" [] "l2"
        (entry [] SaveLocals.init)).1 = Outcome.ret () ∧
    thrownNew (Java_com_amazon_opendistroforelasticsearch_knn_index_v2011_KNNIndex_saveIndex
        NativeSizes.nmslib Scenario.quiet [7, 9] [[1], [3, 4]] "index.hnsw" [] "l2"
        (entry [] SaveLocals.init)).2.trace = [] :=
  ⟨(C2_no_dimension_check NativeSizes.nmslib Scenario.quiet [7, 9] [[1], [3, 4]] "index.hnsw" []
      "l2" [] rfl rfl (by decide) (by decide) (by decide) (fun _ => rfl) rfl rfl (fun _ => rfl)
      rfl rfl rfl).1,
   (C2_no_dimension_check NativeSizes.nmslib Scenario.quiet [7, 9] [[1], [3, 4]] "index.hnsw" []
      "l2" [] rfl rfl (by decide) (by decide) (by decide) (fun _ => rfl) rfl rfl (fun _ => rfl)
      rfl rfl rfl).2.1⟩


end KNN
